import Mathlib

/-!
# Defaulting engine of the operator: `internal/controller/operator/factory/build`

A shallow embedding of `defaults.go` (the common-parameters merger
`addDefaultsToCommonParams`, the enterprise tag rewrite `addEntSuffixToTag`, the sidecar
defaulters, the per-kind entry points `addVMAlertDefaults`, `addVMClusterDefaults` and the
defaulters of the built-in Deployment, StatefulSet and Service) and of `security.go` (the
strict-security pod and container contexts, `compareAppAromr`).

Conventions of the embedding

* A Go `string` is a Lean `String`, read as its sequence of characters. Every separator
  the code looks for (`v`, `.`, `@`, `-`) is a single ASCII character, so positions and
  slices cut the text at the same places as the byte-indexed Go operations.
* A Go pointer field (`*bool`, `*int64`, `*License`, `*commonParams`) is an `Option`:
  `nil` is `none`. Only the pointed-to value is modelled, not the address.
* A Go function that mutates its argument in place returns the updated value.
* The process-wide configuration returned by `getCfg()` and the two helpers of the
  package that live in other files (`formatContainerImage`, `Resources`) are passed in
  explicitly, as the record `Env`.
* Struct fields have the Go zero value as default.
* A Go `panic` is the error case of `Except`; the payload is the panic message.
* Types of the Kubernetes API (`corev1`) keep the fields the code reads or writes.
-/

namespace Build

/-! ## The parts of the Go `strings` package used by the code -/

namespace strings

/-- Go `strings.HasPrefix(s, pre)`: `s` begins with `pre`. -/
def HasPrefix (s pre : String) : Bool := pre.data.isPrefixOf s.data

/-- Go `strings.Count(s, sep)` for a one-character separator: the number of
occurrences of `sep` in `s`. -/
def Count (s : String) (sep : Char) : Nat := s.data.count sep

/-- Go `strings.Index(s, sep)` for a one-character separator: the position of the first
occurrence of `sep` in `s`, or `-1` when there is none. -/
def Index (s : String) (sep : Char) : Int :=
  if sep ∈ s.data then (s.data.indexOf sep : Nat) else -1

end strings

/-- Go slice expression `s[i:]`. -/
def sliceFrom (s : String) (i : Nat) : String := ⟨s.data.drop i⟩

/-- Go slice expression `s[:i]`. -/
def sliceTo (s : String) (i : Nat) : String := ⟨s.data.take i⟩

/-! ## `addEntSuffixToTag` (defaults.go, lines 611-632) -/

/-- Embedding of `addEntSuffixToTag`: the expected version tag is `vX.Y.Z` with an
optional `-` suffix. -/
def addEntSuffixToTag (versionTag : String) : String :=
  if !strings.HasPrefix versionTag "v" || strings.Count versionTag '.' != 2 then
    versionTag
  else if strings.Index versionTag '@' != -1 then
    versionTag
  else
    let idx := strings.Index versionTag '-'
    if idx > 0 then
      let suffix := sliceFrom versionTag idx.toNat
      if suffix = "-enterprise" ∨ suffix = "-enterprise-cluster" then versionTag
      else if suffix = "-cluster" then sliceTo versionTag idx.toNat ++ "-enterprise-cluster"
      else versionTag
    else versionTag ++ "-enterprise"

/-- The two guards at the top of `addEntSuffixToTag`, on the characters of the tag: it
starts with `v`, holds exactly two `.` and no `@`. -/
def tagShape (d : List Char) : Prop :=
  (∃ r, d = 'v' :: r) ∧ d.count '.' = 2 ∧ '@' ∉ d

/-! ## Data model -/

/-- Kubernetes `corev1.LocalObjectReference`. -/
@[ext] structure LocalObjectReference where
  Name : String := ""
  deriving DecidableEq, Repr

/-- Modelled from the spec: the type `vmv1beta1.License` is declared in
`api/operator/v1beta1`, which is not among the verified sources. The override hints carry
"a license-presence flag"; the tests build a provided license as
`License{Key: ptr.To(..)}`. The record
keeps the two ways a license can be given: inline (`Key`) or by reference to a secret
(`KeyRef`, here the name of that reference). -/
structure License where
  Key : Option String := none
  KeyRef : Option String := none
  deriving DecidableEq, Repr

/-- Modelled from the spec: the method `(*License).IsProvided` is declared in
`api/operator/v1beta1`, which is not among the verified sources. It is the
"license-presence flag" of the override hints: a nil license is not provided (the method is called on a nil receiver
in `addDefaultsToCommonParams`), a license with a key or a key reference is. -/
def License.IsProvided : Option License → Bool
  | none => false
  | some l => l.Key.isSome || l.KeyRef.isSome

/-- The struct `commonParams` (defaults.go, lines 20-25): the override hints. -/
structure commonParams where
  tag : String := ""
  useStrictSecurity : Option Bool := none
  license : Option License := none
  imagePullSecrets : List LocalObjectReference := []
  deriving DecidableEq, Repr

/-- The struct `vmv1beta1.Image`: repository, tag and pull policy of a container image. -/
@[ext] structure Image where
  Repository : String := ""
  Tag : String := ""
  PullPolicy : String := ""
  deriving DecidableEq, Repr

/-- Kubernetes `corev1.ResourceList`: resource name to quantity, as an association
list. -/
abbrev ResourceList := List (String × String)

/-- Kubernetes `corev1.ResourceRequirements`: the pair of limits and requests. -/
@[ext] structure ResourceRequirements where
  Limits : ResourceList := []
  Requests : ResourceList := []
  deriving DecidableEq, Repr

/-- Modelled from the spec: the type `config.Resource` is declared in `internal/config`,
which is not among the verified sources. It is the "default resource profile" of an
application kind, a pair of limits and requests like the resource requirements it is merged into. -/
structure Resource where
  Limit : ResourceList := []
  Request : ResourceList := []
  deriving DecidableEq, Repr

/-- Kubernetes `corev1.SeccompProfile`. The Go field `Type` is spelled `Typ`, `Type`
being reserved. -/
structure corev1.SeccompProfile where
  Typ : String := ""
  LocalhostProfile : Option String := none
  deriving DecidableEq, Repr

/-- Kubernetes `corev1.AppArmorProfile`. The Go field `Type` is spelled `Typ`. -/
structure corev1.AppArmorProfile where
  Typ : String := ""
  LocalhostProfile : Option String := none
  deriving DecidableEq, Repr

/-- Kubernetes `corev1.Capabilities`. -/
structure corev1.Capabilities where
  Add : List String := []
  Drop : List String := []
  deriving DecidableEq, Repr

/-- Kubernetes `corev1.PodSecurityContext`, with the fields `security.go` reads or
writes. -/
structure corev1.PodSecurityContext where
  RunAsUser : Option Int := none
  RunAsGroup : Option Int := none
  RunAsNonRoot : Option Bool := none
  FSGroup : Option Int := none
  FSGroupChangePolicy : Option String := none
  SeccompProfile : Option corev1.SeccompProfile := none
  AppArmorProfile : Option corev1.AppArmorProfile := none
  deriving DecidableEq, Repr

/-- Kubernetes `corev1.SecurityContext` (container level), with the fields `security.go`
reads or writes. -/
structure corev1.SecurityContext where
  Capabilities : Option corev1.Capabilities := none
  Privileged : Option Bool := none
  RunAsUser : Option Int := none
  RunAsGroup : Option Int := none
  RunAsNonRoot : Option Bool := none
  ReadOnlyRootFilesystem : Option Bool := none
  AllowPrivilegeEscalation : Option Bool := none
  ProcMount : Option String := none
  SeccompProfile : Option corev1.SeccompProfile := none
  AppArmorProfile : Option corev1.AppArmorProfile := none
  deriving DecidableEq, Repr

/-- The struct `vmv1beta1.ContainerSecurityContext`, with the fields that
`containerSecurityContext` copies from it. -/
structure ContainerSecurityContext where
  Privileged : Option Bool := none
  Capabilities : Option corev1.Capabilities := none
  ReadOnlyRootFilesystem : Option Bool := none
  AllowPrivilegeEscalation : Option Bool := none
  ProcMount : Option String := none
  deriving DecidableEq, Repr

/-- The struct `vmv1beta1.SecurityContext`: the custom context of a CR, which embeds a
pointer to a pod-level and a pointer to a container-level context. -/
structure SecurityContext where
  PodSecurityContext : Option corev1.PodSecurityContext := none
  ContainerSecurityContext : Option ContainerSecurityContext := none
  deriving DecidableEq, Repr

/-- The fields of `vmv1beta1.CommonAppsParams` that `defaults.go` and `security.go` read
or write. The struct is declared in `api/operator/v1beta1`; fields the code never touches
are left out. -/
@[ext] structure CommonAppsParams where
  Image : Image := {}
  ImagePullSecrets : List LocalObjectReference := []
  UseStrictSecurity : Option Bool := none
  DisableSelfServiceScrape : Option Bool := none
  Port : String := ""
  UseDefaultResources : Option Bool := none
  TerminationGracePeriodSeconds : Option Int := none
  DNSPolicy : String := ""
  SchedulerName : String := ""
  Resources : ResourceRequirements := {}
  SecurityContext : Option SecurityContext := none
  deriving DecidableEq, Repr

/-- The fields of `config.ApplicationDefaults` read by the code: the default record of
one application kind. -/
structure ApplicationDefaults where
  Image : String := ""
  Version : String := ""
  Port : String := ""
  UseDefaultResources : Bool := false
  Resource : Resource := {}
  TerminationGracePeriodSeconds : Int := 0
  deriving DecidableEq, Repr

/-- The field `ConfigReloader` of `config.BaseOperatorConf`: default image and resource
profile of the config-reloader sidecar. -/
structure ConfigReloaderConf where
  Image : String := ""
  Resource : Resource := {}
  deriving DecidableEq, Repr

/-- The field `VMCluster.Storage` of `config.BaseOperatorConf`. -/
structure VMClusterStorageConf where
  Common : ApplicationDefaults := {}
  VMInsertPort : String := ""
  VMSelectPort : String := ""
  deriving DecidableEq, Repr

/-- The field `VMCluster` of `config.BaseOperatorConf`: one default record per tier. -/
structure VMClusterConf where
  Storage : VMClusterStorageConf := {}
  Insert : ApplicationDefaults := {}
  Select : ApplicationDefaults := {}
  deriving DecidableEq, Repr

/-- The fields of `config.BaseOperatorConf` read by the embedded functions. A per-kind
record that the code converts with `config.ApplicationDefaults(..)` is held as an
`ApplicationDefaults`. -/
structure BaseOperatorConf where
  ContainerRegistry : String := ""
  DisableSelfServiceScrapeCreation : Bool := false
  EnableStrictSecurity : Bool := false
  ClusterDomainName : String := ""
  ConfigReloader : ConfigReloaderConf := {}
  VMAlert : ApplicationDefaults := {}
  VMAuth : ApplicationDefaults := {}
  VMBackup : ApplicationDefaults := {}
  VMCluster : VMClusterConf := {}
  deriving DecidableEq, Repr

/-- What `addDefaultsToCommonParams` takes from outside `defaults.go`: the configuration
returned by `getCfg()`, the image formatter `formatContainerImage(registry, image)` and
the resource resolver `Resources(current, default, useDefault)`. -/
structure Env where
  cfg : BaseOperatorConf
  formatContainerImage : String → String → String
  Resources : ResourceRequirements → Resource → Bool → ResourceRequirements

/-- Kubernetes constant `corev1.PullIfNotPresent`. -/
def PullIfNotPresent : String := "IfNotPresent"

/-- Kubernetes constant `corev1.DNSClusterFirst`. -/
def DNSClusterFirst : String := "ClusterFirst"

/-! ## The resource resolver of §4.1 -/

/-- A resource list has an entry for the resource name `n`. -/
def ResourceList.has (l : ResourceList) (n : String) : Bool := l.any (fun e => e.1 == n)

/-- The block `cur` specifies a request or a limit for the resource name `n`. -/
def ResourceRequirements.specifies (cur : ResourceRequirements) (n : String) : Bool :=
  ResourceList.has cur.Requests n || ResourceList.has cur.Limits n

/-- Modelled from the spec: the function `Resources` is declared in another file of the
`build` package, which is not among the verified sources. §4.1: "If `current` already specifies any request or
limit quantity for a resource name, that value is preserved; only resource names absent
from `current` are filled from `configuredDefault`", the merge being "gated by a boolean
flag": "If `useDefaultEnabled` is false and `current` is entirely empty, the result is
empty (no defaults injected)". -/
def Resources (crdResources : ResourceRequirements) (defaultResources : Resource)
    (useDefault : Bool) : ResourceRequirements :=
  if useDefault then
    { Limits := crdResources.Limits ++
        defaultResources.Limit.filter (fun e => !crdResources.specifies e.1)
      Requests := crdResources.Requests ++
        defaultResources.Request.filter (fun e => !crdResources.specifies e.1) }
  else crdResources

/-! ## `addDefaultsToCommonParams` (defaults.go, lines 439-487) -/

/-- Embedding of `addDefaultsToCommonParams(common, cp, appDefaults)`. Each `let common`
is one statement of the Go body, in order; `cp = none` is the nil hints pointer. -/
def addDefaultsToCommonParams (env : Env) (common : CommonAppsParams)
    (cp : Option commonParams) (appDefaults : ApplicationDefaults) : CommonAppsParams :=
  let c := env.cfg
  let common : CommonAppsParams :=
    if common.Image.Repository = "" then
      { common with Image := { common.Image with Repository := appDefaults.Image } }
    else common
  let common : CommonAppsParams :=
    { common with Image := { common.Image with
        Repository := env.formatContainerImage c.ContainerRegistry common.Image.Repository } }
  let common : CommonAppsParams :=
    if common.Image.Tag = "" then
      let common : CommonAppsParams :=
        match cp with
        | some p =>
          if p.tag.length > 0 then
            { common with Image := { common.Image with Tag := p.tag } }
          else
            { common with Image := { common.Image with Tag := appDefaults.Version } }
        | none => { common with Image := { common.Image with Tag := appDefaults.Version } }
      match cp with
      | some p =>
        if License.IsProvided p.license then
          { common with Image := { common.Image with Tag := addEntSuffixToTag common.Image.Tag } }
        else common
      | none => common
    else common
  let common : CommonAppsParams :=
    match cp with
    | some p =>
      let common : CommonAppsParams :=
        { common with ImagePullSecrets := common.ImagePullSecrets ++ p.imagePullSecrets }
      if common.UseStrictSecurity = none ∧ p.useStrictSecurity ≠ none then
        { common with UseStrictSecurity := p.useStrictSecurity }
      else common
    | none => common
  let common : CommonAppsParams :=
    if common.DisableSelfServiceScrape = none then
      { common with DisableSelfServiceScrape := some c.DisableSelfServiceScrapeCreation }
    else common
  let common : CommonAppsParams :=
    if common.Port = "" then { common with Port := appDefaults.Port } else common
  let common : CommonAppsParams :=
    if common.Image.PullPolicy = "" then
      { common with Image := { common.Image with PullPolicy := PullIfNotPresent } }
    else common
  let common : CommonAppsParams :=
    if common.UseStrictSecurity = none ∧ c.EnableStrictSecurity = true then
      { common with UseStrictSecurity := some c.EnableStrictSecurity }
    else common
  let common : CommonAppsParams :=
    if common.UseDefaultResources = none ∧ appDefaults.UseDefaultResources = true then
      { common with UseDefaultResources := some appDefaults.UseDefaultResources }
    else common
  let common : CommonAppsParams :=
    if common.TerminationGracePeriodSeconds = none then
      { common with
        TerminationGracePeriodSeconds := some appDefaults.TerminationGracePeriodSeconds }
    else common
  let common : CommonAppsParams :=
    if common.DNSPolicy = "" then { common with DNSPolicy := DNSClusterFirst } else common
  let common : CommonAppsParams :=
    if common.SchedulerName = "" then
      { common with SchedulerName := "default-scheduler" }
    else common
  { common with
    Resources := env.Resources common.Resources appDefaults.Resource
      (common.UseDefaultResources.getD false) }

/-! ## `security.go` -/

/-- Kubernetes constant `corev1.SeccompProfileTypeRuntimeDefault`. -/
def SeccompProfileTypeRuntimeDefault : String := "RuntimeDefault"

/-- Kubernetes constant `corev1.FSGroupChangeOnRootMismatch`. -/
def FSGroupChangeOnRootMismatch : String := "OnRootMismatch"

/-- Kubernetes constant `corev1.AppArmorProfileTypeRuntimeDefault`. -/
def AppArmorProfileTypeRuntimeDefault : String := "RuntimeDefault"

/-- Kubernetes constant `corev1.AppArmorProfileTypeUnconfined`. -/
def AppArmorProfileTypeUnconfined : String := "Unconfined"

/-- Kubernetes constant `corev1.AppArmorProfileTypeLocalhost`. -/
def AppArmorProfileTypeLocalhost : String := "Localhost"

/-- Package variable `containerUserGroup` (security.go, line 51): `65534` refers to
`nobody` in the default images. -/
def containerUserGroup : Int := 65534

/-- Package variable `runNonRoot` (security.go, line 52). -/
def runNonRoot : Bool := true

/-- Embedding of `getDefaultPodSecurityContext` (security.go, lines 15-28). The Go
function returns a pointer that is never nil; the embedding returns the pointed value. -/
def getDefaultPodSecurityContext (requireRoot : Bool) : corev1.PodSecurityContext :=
  let sc : corev1.PodSecurityContext :=
    { FSGroup := some containerUserGroup
      SeccompProfile := some { Typ := SeccompProfileTypeRuntimeDefault } }
  if !requireRoot then
    { sc with
      RunAsNonRoot := some runNonRoot
      RunAsUser := some containerUserGroup
      RunAsGroup := some containerUserGroup }
  else sc

/-- Embedding of `getDefaultSecurityContext` (security.go, lines 30-47). -/
def getDefaultSecurityContext (requireRoot : Bool) : corev1.SecurityContext :=
  let sc : corev1.SecurityContext :=
    { Privileged := some false
      ReadOnlyRootFilesystem := some true
      AllowPrivilegeEscalation := some false
      Capabilities := some { Drop := ["ALL"] } }
  if !requireRoot then
    { sc with
      RunAsUser := some containerUserGroup
      RunAsGroup := some containerUserGroup
      RunAsNonRoot := some runNonRoot }
  else sc

/-- Embedding of `addStrictSecuritySettingsToPod` (security.go, lines 101-114). `params`
is the pointer argument (`none` is nil), the result is the returned pointer, and
`fsGroupChangePolicySupported` is what the platform probe
`k8stools.IsFSGroupChangePolicySupported()` reports. -/
def addStrictSecuritySettingsToPod (fsGroupChangePolicySupported : Bool)
    (params : Option CommonAppsParams) : Option corev1.PodSecurityContext :=
  match params with
  | none => none
  | some params =>
    if !(params.UseStrictSecurity.getD false) then none
    else
      match params.SecurityContext with
      | some custom => custom.PodSecurityContext
      | none =>
        let securityContext := getDefaultPodSecurityContext false
        let securityContext : corev1.PodSecurityContext :=
          if fsGroupChangePolicySupported then
            { securityContext with FSGroupChangePolicy := some FSGroupChangeOnRootMismatch }
          else securityContext
        some securityContext

/-- Embedding of `addStrictSecuritySettingsWithRootToPod` (security.go, lines 117-130). -/
def addStrictSecuritySettingsWithRootToPod (fsGroupChangePolicySupported : Bool)
    (params : Option CommonAppsParams) : Option corev1.PodSecurityContext :=
  match params with
  | none => none
  | some params =>
    if !(params.UseStrictSecurity.getD false) then none
    else
      match params.SecurityContext with
      | some custom => custom.PodSecurityContext
      | none =>
        let securityContext := getDefaultPodSecurityContext true
        let securityContext : corev1.PodSecurityContext :=
          if fsGroupChangePolicySupported then
            { securityContext with FSGroupChangePolicy := some FSGroupChangeOnRootMismatch }
          else securityContext
        some securityContext

/-- Embedding of `compareAppAromr` (security.go, lines 134-157). The comparison of two
present profiles goes through `equality.Semantic.DeepDerivative` of the Kubernetes
library, once on the `Type` strings and once on the `LocalhostProfile` pointers; both
uses are parameters. A test `x != nil && f(x)` is `x.any f`; the last case of the inner
`match` is never reached. -/
def compareAppAromr (deepDerivativeType : String → String → Bool)
    (deepDerivativeProfile : Option String → Option String → Bool)
    (left right : Option corev1.AppArmorProfile) : Bool :=
  if left = none ∧ right = none then
    true
  else if left ≠ none ∧ right ≠ none then
    match left, right with
    | some l, some r =>
      deepDerivativeType l.Typ r.Typ &&
        deepDerivativeProfile l.LocalhostProfile r.LocalhostProfile
    | _, _ => false
  else if left.any (fun l =>
      l.Typ == AppArmorProfileTypeRuntimeDefault ||
        l.Typ == AppArmorProfileTypeUnconfined) then
    true
  else if right.any (fun r =>
      r.Typ == AppArmorProfileTypeRuntimeDefault ||
        r.Typ == AppArmorProfileTypeUnconfined) then
    true
  else false

/-! ## Sidecar defaulters (defaults.go, lines 489-526) -/

/-- The fields of `vmv1beta1.CommonConfigReloaderParams` used by
`addDefaultsToConfigReloader`. -/
structure CommonConfigReloaderParams where
  ConfigReloaderImage : String := ""
  ConfigReloaderImageTag : String := ""
  ConfigReloaderResources : ResourceRequirements := {}
  deriving DecidableEq, Repr

/-- Embedding of `addDefaultsToConfigReloader` (defaults.go, lines 489-501). -/
def addDefaultsToConfigReloader (env : Env) (common : CommonConfigReloaderParams)
    (useDefaultResources : Bool) : CommonConfigReloaderParams :=
  let c := env.cfg
  let common : CommonConfigReloaderParams :=
    if common.ConfigReloaderImage = "" then
      if common.ConfigReloaderImageTag ≠ "" then
        { common with ConfigReloaderImage := common.ConfigReloaderImageTag }
      else
        { common with ConfigReloaderImage := c.ConfigReloader.Image }
    else common
  let common : CommonConfigReloaderParams :=
    { common with
      ConfigReloaderImage :=
        env.formatContainerImage c.ContainerRegistry common.ConfigReloaderImage }
  { common with
    ConfigReloaderResources :=
      env.Resources common.ConfigReloaderResources c.ConfigReloader.Resource
        useDefaultResources }

/-- The fields of `vmv1beta1.VMBackup` used by `addDefaultsToVMBackup`. -/
structure VMBackup where
  Image : Image := {}
  Port : String := ""
  Resources : ResourceRequirements := {}
  deriving DecidableEq, Repr

/-- Embedding of `addDefaultsToVMBackup` (defaults.go, lines 503-526). `cr` is the
pointer argument; on nil the function returns at once. -/
def addDefaultsToVMBackup (env : Env) (cr : Option VMBackup) (useDefaultResources : Bool)
    (appDefaults : ApplicationDefaults) : Option VMBackup :=
  match cr with
  | none => none
  | some cr =>
    let c := env.cfg
    let cr : VMBackup :=
      if cr.Image.Repository = "" then
        { cr with Image := { cr.Image with Repository := appDefaults.Image } }
      else cr
    let cr : VMBackup :=
      { cr with Image := { cr.Image with
          Repository := env.formatContainerImage c.ContainerRegistry cr.Image.Repository } }
    let cr : VMBackup :=
      if cr.Image.Tag = "" then
        let cr : VMBackup := { cr with Image := { cr.Image with Tag := appDefaults.Version } }
        { cr with Image := { cr.Image with Tag := addEntSuffixToTag cr.Image.Tag } }
      else cr
    let cr : VMBackup :=
      if cr.Port = "" then { cr with Port := appDefaults.Port } else cr
    let cr : VMBackup :=
      if cr.Image.PullPolicy = "" then
        { cr with Image := { cr.Image with PullPolicy := PullIfNotPresent } }
      else cr
    some { cr with
      Resources := env.Resources cr.Resources appDefaults.Resource useDefaultResources }

/-! ## `addVMAlertDefaults` (defaults.go, lines 236-249) -/

/-- The fields of `vmv1beta1.VMAlertSpec` used by `addVMAlertDefaults`; the two parameter
blocks are embedded structs of the Go type. -/
structure VMAlertSpec where
  CommonAppsParams : CommonAppsParams := {}
  CommonConfigReloaderParams : CommonConfigReloaderParams := {}
  License : Option License := none
  deriving DecidableEq, Repr

/-- The CR `vmv1beta1.VMAlert`. -/
structure VMAlert where
  Spec : VMAlertSpec := {}
  deriving DecidableEq, Repr

/-- Embedding of `addVMAlertDefaults`. The Go function mutates the CR and returns
nothing, or panics with the message `cannot be empty`; the embedding returns the mutated
CR or the panic message. -/
def addVMAlertDefaults (env : Env) (cr : VMAlert) : Except String VMAlert :=
  let c := env.cfg
  let cv := c.VMAlert
  let cp : commonParams := { license := cr.Spec.License }
  let cr : VMAlert :=
    { cr with Spec := { cr.Spec with
        CommonAppsParams := addDefaultsToCommonParams env cr.Spec.CommonAppsParams (some cp) cv } }
  let cr : VMAlert :=
    { cr with Spec := { cr.Spec with
        CommonConfigReloaderParams :=
          addDefaultsToConfigReloader env cr.Spec.CommonConfigReloaderParams
            (cr.Spec.CommonAppsParams.UseDefaultResources.getD false) } }
  if cr.Spec.CommonConfigReloaderParams.ConfigReloaderImage = "" then
    Except.error "cannot be empty"
  else Except.ok cr

/-! ## `addVMClusterDefaults` (defaults.go, lines 375-437) -/

/-- Kubernetes `corev1.HTTPGetAction`; the code only creates an empty one. -/
structure corev1.HTTPGetAction where
  deriving DecidableEq, Repr

/-- Kubernetes `corev1.Probe`, with the fields `defaults.go` sets; `HTTPGet` is the
field of the embedded `ProbeHandler`. -/
structure corev1.Probe where
  HTTPGet : Option corev1.HTTPGetAction := none
  InitialDelaySeconds : Int := 0
  PeriodSeconds : Int := 0
  FailureThreshold : Int := 0
  deriving DecidableEq, Repr

/-- The struct `vmv1beta1.EmbeddedProbes`. -/
structure EmbeddedProbes where
  LivenessProbe : Option corev1.Probe := none
  ReadinessProbe : Option corev1.Probe := none
  StartupProbe : Option corev1.Probe := none
  deriving DecidableEq, Repr

/-- The field `UseAsDefault` of `vmv1beta1.AdditionalServiceSpec`. -/
structure AdditionalServiceSpec where
  UseAsDefault : Bool := false
  deriving DecidableEq, Repr

/-- The fields of `vmv1beta1.VMAuthLoadBalancerSpec` used by
`addRequestsLoadBalancerDefaults`. `EmbeddedProbes` is an embedded pointer, through which
the Go code reaches `StartupProbe`. -/
structure VMAuthLoadBalancerSpec where
  CommonAppsParams : CommonAppsParams := {}
  EmbeddedProbes : Option EmbeddedProbes := none
  AdditionalServiceSpec : Option AdditionalServiceSpec := none
  deriving DecidableEq, Repr

/-- The struct `vmv1beta1.VMAuthLoadBalancer`. -/
structure VMAuthLoadBalancer where
  Enabled : Bool := false
  Spec : VMAuthLoadBalancerSpec := {}
  deriving DecidableEq, Repr

/-- The fields of `vmv1beta1.VMStorage` used by `addVMClusterDefaults`. -/
structure VMStorage where
  CommonAppsParams : CommonAppsParams := {}
  StorageDataPath : String := ""
  VMInsertPort : String := ""
  VMSelectPort : String := ""
  VMBackup : Option VMBackup := none
  deriving DecidableEq, Repr

/-- The fields of `vmv1beta1.VMInsert` used by `addVMClusterDefaults`. -/
structure VMInsert where
  CommonAppsParams : CommonAppsParams := {}
  deriving DecidableEq, Repr

/-- The fields of `vmv1beta1.VMSelect` used by `addVMClusterDefaults`. -/
structure VMSelect where
  CommonAppsParams : CommonAppsParams := {}
  deriving DecidableEq, Repr

/-- The fields of `vmv1beta1.VMClusterSpec` used by `addVMClusterDefaults`. -/
structure VMClusterSpec where
  ClusterDomainName : String := ""
  ClusterVersion : String := ""
  License : Option License := none
  UseStrictSecurity : Option Bool := none
  ImagePullSecrets : List LocalObjectReference := []
  VMStorage : Option VMStorage := none
  VMInsert : Option VMInsert := none
  VMSelect : Option VMSelect := none
  RequestsLoadBalancer : VMAuthLoadBalancer := {}
  deriving DecidableEq, Repr

/-- The CR `vmv1beta1.VMCluster`. -/
structure VMCluster where
  Spec : VMClusterSpec := {}
  deriving DecidableEq, Repr

/-- Constant `vmStorageDefaultDBPath` (defaults.go, line 372). -/
def vmStorageDefaultDBPath : String := "vmstorage-data"

/-- Embedding of `addRequestsLoadBalancerDefaults` (defaults.go, lines 375-392). After
the first test `EmbeddedProbes` is non-nil, so the test on `StartupProbe` reads the
probes just installed or the ones of the CR. -/
def addRequestsLoadBalancerDefaults (env : Env) (lb : VMAuthLoadBalancer)
    (cp : Option commonParams) : VMAuthLoadBalancer :=
  let c := env.cfg
  let cv := c.VMAuth
  let lb : VMAuthLoadBalancer :=
    { lb with Spec := { lb.Spec with
        CommonAppsParams := addDefaultsToCommonParams env lb.Spec.CommonAppsParams cp cv } }
  let probes : EmbeddedProbes :=
    match lb.Spec.EmbeddedProbes with
    | none => {}
    | some p => p
  let probes : EmbeddedProbes :=
    if probes.StartupProbe = none then
      { probes with StartupProbe := some { HTTPGet := some {} } }
    else probes
  let lb : VMAuthLoadBalancer :=
    { lb with Spec := { lb.Spec with EmbeddedProbes := some probes } }
  match lb.Spec.AdditionalServiceSpec with
  | some a =>
    if !a.UseAsDefault then
      { lb with Spec := { lb.Spec with
          AdditionalServiceSpec := some { a with UseAsDefault := true } } }
    else lb
  | none => lb

/-- Embedding of `addVMClusterDefaults` (defaults.go, lines 394-437). The hints `cp` are
built once from the top-level CR and passed to the merge of every tier. -/
def addVMClusterDefaults (env : Env) (cr : VMCluster) : VMCluster :=
  let c := env.cfg
  let cr : VMCluster :=
    if cr.Spec.ClusterDomainName = "" then
      { cr with Spec := { cr.Spec with ClusterDomainName := c.ClusterDomainName } }
    else cr
  let cp : commonParams :=
    { useStrictSecurity := cr.Spec.UseStrictSecurity
      tag := cr.Spec.ClusterVersion
      license := cr.Spec.License
      imagePullSecrets := cr.Spec.ImagePullSecrets }
  let cr : VMCluster :=
    match cr.Spec.VMStorage with
    | some st =>
      let st : VMStorage :=
        if st.StorageDataPath = "" then
          { st with StorageDataPath := vmStorageDefaultDBPath }
        else st
      let st : VMStorage :=
        if st.VMInsertPort = "" then
          { st with VMInsertPort := c.VMCluster.Storage.VMInsertPort }
        else st
      let st : VMStorage :=
        if st.VMSelectPort = "" then
          { st with VMSelectPort := c.VMCluster.Storage.VMSelectPort }
        else st
      let cv := c.VMCluster.Storage.Common
      let st : VMStorage :=
        { st with
          CommonAppsParams := addDefaultsToCommonParams env st.CommonAppsParams (some cp) cv }
      let bv := c.VMBackup
      let useBackupDefaultResources :=
        match st.CommonAppsParams.UseDefaultResources with
        | some v => v
        | none => c.VMBackup.UseDefaultResources
      let st : VMStorage :=
        { st with VMBackup := addDefaultsToVMBackup env st.VMBackup useBackupDefaultResources bv }
      { cr with Spec := { cr.Spec with VMStorage := some st } }
    | none => cr
  let cr : VMCluster :=
    match cr.Spec.VMInsert with
    | some ins =>
      let cv := c.VMCluster.Insert
      { cr with Spec := { cr.Spec with
          VMInsert := some { ins with
            CommonAppsParams :=
              addDefaultsToCommonParams env ins.CommonAppsParams (some cp) cv } } }
    | none => cr
  let cr : VMCluster :=
    match cr.Spec.VMSelect with
    | some sel =>
      let cv := c.VMCluster.Select
      { cr with Spec := { cr.Spec with
          VMSelect := some { sel with
            CommonAppsParams :=
              addDefaultsToCommonParams env sel.CommonAppsParams (some cp) cv } } }
    | none => cr
  if cr.Spec.RequestsLoadBalancer.Enabled then
    { cr with Spec := { cr.Spec with
        RequestsLoadBalancer :=
          addRequestsLoadBalancerDefaults env cr.Spec.RequestsLoadBalancer (some cp) } }
  else cr

/-! ## Strict security: container level (security.go, lines 55-98) -/

/-- Kubernetes `corev1.Container`, with its name, its image and the one field the code
writes. -/
structure corev1.Container where
  Name : String := ""
  Image : String := ""
  SecurityContext : Option corev1.SecurityContext := none
  deriving DecidableEq, Repr

/-- Embedding of `containerSecurityContext` (security.go, lines 77-98). The fields read
through `p` are promoted fields of the two embedded pointers of `vmv1beta1.SecurityContext`:
the first five of `ContainerSecurityContext`, the last five of `PodSecurityContext`. -/
def containerSecurityContext (p : Option SecurityContext) (requireRoot : Bool) :
    corev1.SecurityContext :=
  match p with
  | none => getDefaultSecurityContext requireRoot
  | some p =>
    let sc : corev1.SecurityContext := {}
    let sc : corev1.SecurityContext :=
      match p.ContainerSecurityContext with
      | some c =>
        { sc with
          Privileged := c.Privileged
          Capabilities := c.Capabilities
          ReadOnlyRootFilesystem := c.ReadOnlyRootFilesystem
          AllowPrivilegeEscalation := c.AllowPrivilegeEscalation
          ProcMount := c.ProcMount }
      | none => sc
    let sc : corev1.SecurityContext :=
      match p.PodSecurityContext with
      | some q =>
        { sc with
          RunAsUser := q.RunAsUser
          RunAsGroup := q.RunAsGroup
          RunAsNonRoot := q.RunAsNonRoot
          AppArmorProfile := q.AppArmorProfile
          SeccompProfile := q.SeccompProfile }
      | none => sc
    sc

/-- The run-time panic of Go on a field selection through a nil pointer. -/
def nilDereference : String :=
  "runtime error: invalid memory address or nil pointer dereference"

/-- Go field selection `params.f` through the pointer `params`: the pointed struct, or the
run-time panic when the pointer is nil. -/
def derefParams (params : Option CommonAppsParams) : Except String CommonAppsParams :=
  match params with
  | none => Except.error nilDereference
  | some p => Except.ok p

/-- Embedding of `AddStrictSecuritySettingsToContainers` (security.go, lines 56-64). The
guard `!ptr.Deref(params.UseStrictSecurity, false) && (params == nil || ...)` evaluates
its left operand first, and that operand selects a field through `params`. The result is
the container list after the call, or the panic. -/
def AddStrictSecuritySettingsToContainers (containers : List corev1.Container)
    (params : Option CommonAppsParams) : Except String (List corev1.Container) :=
  match derefParams params with
  | Except.error e => Except.error e
  | Except.ok p =>
    if !(p.UseStrictSecurity.getD false) && (params == none || p.SecurityContext == none) then
      Except.ok containers
    else
      Except.ok (containers.map (fun container =>
        { container with
          SecurityContext := some (containerSecurityContext p.SecurityContext false) }))

/-- Embedding of `AddStrictSecuritySettingsWithRootToContainers` (security.go, lines
67-75). -/
def AddStrictSecuritySettingsWithRootToContainers (containers : List corev1.Container)
    (params : Option CommonAppsParams) : Except String (List corev1.Container) :=
  match derefParams params with
  | Except.error e => Except.error e
  | Except.ok p =>
    if !(p.UseStrictSecurity.getD false) && (params == none || p.SecurityContext == none) then
      Except.ok containers
    else
      Except.ok (containers.map (fun container =>
        { container with
          SecurityContext := some (containerSecurityContext p.SecurityContext true) }))

/-! ## Defaulters of the built-in objects (defaults.go, lines 79-213) -/

/-- Kubernetes `intstr.IntOrString`: `Typ` (the Go field `Type`) is `0` for an integer and
`1` for a string. -/
@[ext] structure IntOrString where
  Typ : Int := 0
  IntVal : Int := 0
  StrVal : String := ""
  deriving DecidableEq, Repr

/-- Kubernetes `intstr.FromInt32`. -/
def intstr.FromInt32 (val : Int) : IntOrString := { Typ := 0, IntVal := val }

/-- Kubernetes `intstr.FromString`. -/
def intstr.FromString (val : String) : IntOrString := { Typ := 1, StrVal := val }

/-- Kubernetes `appsv1.RollingUpdateDeployment`. -/
@[ext] structure appsv1.RollingUpdateDeployment where
  MaxUnavailable : Option IntOrString := none
  MaxSurge : Option IntOrString := none
  deriving DecidableEq, Repr

/-- Kubernetes `appsv1.DeploymentStrategy`; `Typ` is the Go field `Type`. -/
@[ext] structure appsv1.DeploymentStrategy where
  Typ : String := ""
  RollingUpdate : Option appsv1.RollingUpdateDeployment := none
  deriving DecidableEq, Repr

/-- Kubernetes `appsv1.DeploymentSpec`, with the fields `addDeploymentDefaults` reads or
writes. -/
@[ext] structure appsv1.DeploymentSpec where
  Replicas : Option Int := none
  Strategy : appsv1.DeploymentStrategy := {}
  RevisionHistoryLimit : Option Int := none
  ProgressDeadlineSeconds : Option Int := none
  deriving DecidableEq, Repr

/-- Kubernetes `appsv1.Deployment`. -/
@[ext] structure appsv1.Deployment where
  Spec : appsv1.DeploymentSpec := {}
  deriving DecidableEq, Repr

/-- Kubernetes constant `appsv1.RollingUpdateDeploymentStrategyType`. -/
def RollingUpdateDeploymentStrategyType : String := "RollingUpdate"

/-- Kubernetes constant `appsv1.RecreateDeploymentStrategyType`. -/
def RecreateDeploymentStrategyType : String := "Recreate"

/-- Embedding of `addDeploymentDefaults` (defaults.go, lines 119-155). -/
def addDeploymentDefaults (obj : appsv1.Deployment) : appsv1.Deployment :=
  let obj : appsv1.Deployment :=
    if obj.Spec.Replicas = none then
      { obj with Spec := { obj.Spec with Replicas := some 1 } }
    else obj
  let strategy := obj.Spec.Strategy
  let strategy : appsv1.DeploymentStrategy :=
    if strategy.Typ = "" then
      { strategy with Typ := RollingUpdateDeploymentStrategyType }
    else strategy
  let strategy : appsv1.DeploymentStrategy :=
    if strategy.Typ = RollingUpdateDeploymentStrategyType then
      let rollingUpdate : appsv1.RollingUpdateDeployment :=
        match strategy.RollingUpdate with
        | none => {}
        | some r => r
      let rollingUpdate : appsv1.RollingUpdateDeployment :=
        if rollingUpdate.MaxUnavailable = none then
          { rollingUpdate with MaxUnavailable := some (intstr.FromString "25%") }
        else rollingUpdate
      let rollingUpdate : appsv1.RollingUpdateDeployment :=
        if rollingUpdate.MaxSurge = none then
          { rollingUpdate with MaxSurge := some (intstr.FromString "25%") }
        else rollingUpdate
      { strategy with RollingUpdate := some rollingUpdate }
    else strategy
  let obj : appsv1.Deployment := { obj with Spec := { obj.Spec with Strategy := strategy } }
  let obj : appsv1.Deployment :=
    if obj.Spec.RevisionHistoryLimit = none then
      { obj with Spec := { obj.Spec with RevisionHistoryLimit := some 10 } }
    else obj
  if obj.Spec.ProgressDeadlineSeconds = none then
    { obj with Spec := { obj.Spec with ProgressDeadlineSeconds := some 600 } }
  else obj

/-- Kubernetes `appsv1.RollingUpdateStatefulSetStrategy`. -/
@[ext] structure appsv1.RollingUpdateStatefulSetStrategy where
  Partition : Option Int := none
  deriving DecidableEq, Repr

/-- Kubernetes `appsv1.StatefulSetUpdateStrategy`; `Typ` is the Go field `Type`. -/
@[ext] structure appsv1.StatefulSetUpdateStrategy where
  Typ : String := ""
  RollingUpdate : Option appsv1.RollingUpdateStatefulSetStrategy := none
  deriving DecidableEq, Repr

/-- Kubernetes `corev1.PodSpec`, with the field `addStatefulsetDefaults` writes. -/
@[ext] structure corev1.PodSpec where
  SecurityContext : Option corev1.PodSecurityContext := none
  deriving DecidableEq, Repr

/-- Kubernetes `corev1.PodTemplateSpec`. -/
@[ext] structure corev1.PodTemplateSpec where
  Spec : corev1.PodSpec := {}
  deriving DecidableEq, Repr

/-- Kubernetes `appsv1.StatefulSetSpec`, with the fields `addStatefulsetDefaults` reads or
writes. -/
@[ext] structure appsv1.StatefulSetSpec where
  Replicas : Option Int := none
  Template : corev1.PodTemplateSpec := {}
  PodManagementPolicy : String := ""
  UpdateStrategy : appsv1.StatefulSetUpdateStrategy := {}
  RevisionHistoryLimit : Option Int := none
  MinReadySeconds : Int := 0
  deriving DecidableEq, Repr

/-- Kubernetes `appsv1.StatefulSet`. -/
@[ext] structure appsv1.StatefulSet where
  Spec : appsv1.StatefulSetSpec := {}
  deriving DecidableEq, Repr

/-- Kubernetes constant `appsv1.OnDeleteStatefulSetStrategyType`. -/
def OnDeleteStatefulSetStrategyType : String := "OnDelete"

/-- Kubernetes constant `appsv1.RollingUpdateStatefulSetStrategyType`. -/
def RollingUpdateStatefulSetStrategyType : String := "RollingUpdate"

/-- Kubernetes constant `appsv1.ParallelPodManagement`. -/
def ParallelPodManagement : String := "Parallel"

/-- Kubernetes constant `appsv1.OrderedReadyPodManagement`. -/
def OrderedReadyPodManagement : String := "OrderedReady"

/-- Embedding of `addStatefulsetDefaults` (defaults.go, lines 81-115). -/
def addStatefulsetDefaults (obj : appsv1.StatefulSet) : appsv1.StatefulSet :=
  let spec := obj.Spec
  let spec : appsv1.StatefulSetSpec :=
    if spec.UpdateStrategy.Typ = "" then
      { spec with
        UpdateStrategy := { spec.UpdateStrategy with Typ := OnDeleteStatefulSetStrategyType } }
    else spec
  let spec : appsv1.StatefulSetSpec :=
    if spec.UpdateStrategy.Typ = RollingUpdateStatefulSetStrategyType then
      match spec.UpdateStrategy.RollingUpdate with
      | some r =>
        if r.Partition = none then
          { spec with
            UpdateStrategy := { spec.UpdateStrategy with
              RollingUpdate := some { r with Partition := some 0 } } }
        else spec
      | none => spec
    else spec
  let spec : appsv1.StatefulSetSpec :=
    if spec.PodManagementPolicy = "" then
      let spec : appsv1.StatefulSetSpec :=
        { spec with PodManagementPolicy := ParallelPodManagement }
      if spec.MinReadySeconds > 0 ∨
          spec.UpdateStrategy.Typ = RollingUpdateStatefulSetStrategyType then
        { spec with PodManagementPolicy := OrderedReadyPodManagement }
      else spec
    else spec
  let spec : appsv1.StatefulSetSpec :=
    if spec.Template.Spec.SecurityContext = none then
      { spec with Template := { spec.Template with
          Spec := { spec.Template.Spec with SecurityContext := some {} } } }
    else spec
  let spec : appsv1.StatefulSetSpec :=
    if spec.Replicas = none then { spec with Replicas := some 1 } else spec
  let spec : appsv1.StatefulSetSpec :=
    if spec.RevisionHistoryLimit = none then
      { spec with RevisionHistoryLimit := some 10 }
    else spec
  { obj with Spec := spec }

/-- Kubernetes `corev1.ClientIPConfig`. -/
@[ext] structure corev1.ClientIPConfig where
  TimeoutSeconds : Option Int := none
  deriving DecidableEq, Repr

/-- Kubernetes `corev1.SessionAffinityConfig`. -/
@[ext] structure corev1.SessionAffinityConfig where
  ClientIP : Option corev1.ClientIPConfig := none
  deriving DecidableEq, Repr

/-- Kubernetes `corev1.ServicePort`, with the fields `addServiceDefaults` reads or
writes. -/
@[ext] structure corev1.ServicePort where
  Name : String := ""
  Protocol : String := ""
  Port : Int := 0
  TargetPort : IntOrString := {}
  deriving DecidableEq, Repr

/-- Kubernetes `corev1.ServiceSpec`, with the fields `addServiceDefaults` reads or writes;
`Typ` is the Go field `Type`. -/
@[ext] structure corev1.ServiceSpec where
  Ports : List corev1.ServicePort := []
  Typ : String := ""
  ExternalIPs : List String := []
  SessionAffinity : String := ""
  ExternalTrafficPolicy : String := ""
  SessionAffinityConfig : Option corev1.SessionAffinityConfig := none
  AllocateLoadBalancerNodePorts : Option Bool := none
  InternalTrafficPolicy : Option String := none
  deriving DecidableEq, Repr

/-- Kubernetes `corev1.Service`. -/
@[ext] structure corev1.Service where
  Spec : corev1.ServiceSpec := {}
  deriving DecidableEq, Repr

/-- Kubernetes constant `corev1.ServiceAffinityNone`. -/
def ServiceAffinityNone : String := "None"

/-- Kubernetes constant `corev1.ServiceAffinityClientIP`. -/
def ServiceAffinityClientIP : String := "ClientIP"

/-- Kubernetes constant `corev1.DefaultClientIPServiceAffinitySeconds`. -/
def DefaultClientIPServiceAffinitySeconds : Int := 10800

/-- Kubernetes constant `corev1.ServiceTypeClusterIP`. -/
def ServiceTypeClusterIP : String := "ClusterIP"

/-- Kubernetes constant `corev1.ServiceTypeNodePort`. -/
def ServiceTypeNodePort : String := "NodePort"

/-- Kubernetes constant `corev1.ServiceTypeLoadBalancer`. -/
def ServiceTypeLoadBalancer : String := "LoadBalancer"

/-- Kubernetes constant `corev1.ProtocolTCP`. -/
def ProtocolTCP : String := "TCP"

/-- Kubernetes constant `corev1.ServiceExternalTrafficPolicyCluster`. -/
def ServiceExternalTrafficPolicyCluster : String := "Cluster"

/-- Kubernetes constant `corev1.ServiceInternalTrafficPolicyCluster`. -/
def ServiceInternalTrafficPolicyCluster : String := "Cluster"

/-- Embedding of `isExternallyAccessible` (defaults.go, lines 209-213). -/
def isExternallyAccessible (service : corev1.Service) : Bool :=
  service.Spec.Typ == ServiceTypeLoadBalancer ||
    service.Spec.Typ == ServiceTypeNodePort ||
    (service.Spec.Typ == ServiceTypeClusterIP && service.Spec.ExternalIPs.length > 0)

/-- The body of the loop over `obj.Spec.Ports` in `addServiceDefaults` (defaults.go, lines
181-187), for one port `sp`. -/
def servicePortDefaults (sp : corev1.ServicePort) : corev1.ServicePort :=
  let sp : corev1.ServicePort :=
    if sp.Protocol = "" then { sp with Protocol := ProtocolTCP } else sp
  if sp.TargetPort = intstr.FromInt32 0 ∨ sp.TargetPort = intstr.FromString "" then
    { sp with TargetPort := intstr.FromInt32 sp.Port }
  else sp

/-- Embedding of `addServiceDefaults` (defaults.go, lines 159-206). -/
def addServiceDefaults (obj : corev1.Service) : corev1.Service :=
  let obj : corev1.Service :=
    if obj.Spec.SessionAffinity = "" then
      { obj with Spec := { obj.Spec with SessionAffinity := ServiceAffinityNone } }
    else obj
  let obj : corev1.Service :=
    if obj.Spec.SessionAffinity = ServiceAffinityNone then
      { obj with Spec := { obj.Spec with SessionAffinityConfig := none } }
    else obj
  let obj : corev1.Service :=
    if obj.Spec.SessionAffinity = ServiceAffinityClientIP then
      if (match obj.Spec.SessionAffinityConfig with
          | none => true
          | some config =>
            match config.ClientIP with
            | none => true
            | some clientIP => clientIP.TimeoutSeconds == none) then
        let timeoutSeconds := DefaultClientIPServiceAffinitySeconds
        { obj with Spec := { obj.Spec with
            SessionAffinityConfig :=
              some { ClientIP := some { TimeoutSeconds := some timeoutSeconds } } } }
      else obj
    else obj
  let obj : corev1.Service :=
    if obj.Spec.Typ = "" then
      { obj with Spec := { obj.Spec with Typ := ServiceTypeClusterIP } }
    else obj
  let obj : corev1.Service :=
    { obj with Spec := { obj.Spec with Ports := obj.Spec.Ports.map servicePortDefaults } }
  let obj : corev1.Service :=
    if isExternallyAccessible obj ∧ obj.Spec.ExternalTrafficPolicy = "" then
      { obj with Spec := { obj.Spec with
          ExternalTrafficPolicy := ServiceExternalTrafficPolicyCluster } }
    else obj
  let obj : corev1.Service :=
    if obj.Spec.InternalTrafficPolicy = none then
      if obj.Spec.Typ = ServiceTypeNodePort ∨ obj.Spec.Typ = ServiceTypeLoadBalancer ∨
          obj.Spec.Typ = ServiceTypeClusterIP then
        let serviceInternalTrafficPolicyCluster := ServiceInternalTrafficPolicyCluster
        { obj with Spec := { obj.Spec with
            InternalTrafficPolicy := some serviceInternalTrafficPolicyCluster } }
      else obj
    else obj
  if obj.Spec.Typ = ServiceTypeLoadBalancer then
    if obj.Spec.AllocateLoadBalancerNodePorts = none then
      { obj with Spec := { obj.Spec with AllocateLoadBalancerNodePorts := some true } }
    else obj
  else obj

/-! ## Concrete inputs used by the witnesses -/

/-- An environment as in the unit tests of `defaults_test.go`: zero-valued base
configuration (no container registry, switches off), an image formatter that has nothing
to prepend and returns the image as given, and the resource resolver of §4.1. -/
def testEnv : Env :=
  { cfg := {}
    formatContainerImage := fun _ image => image
    Resources := Resources }

/-- The hints of the unit tests: only a license key. -/
def licensedHints : commonParams :=
  { license := some { Key := some "license-key-value" } }

/-- A block in which every field guarded by `addDefaultsToCommonParams` is already set. -/
def fullBlock : CommonAppsParams :=
  { Image := { Repository := "repo/app", Tag := "v1.0.0", PullPolicy := "Always" }
    UseStrictSecurity := some false
    DisableSelfServiceScrape := some true
    Port := "9000"
    UseDefaultResources := some false
    TerminationGracePeriodSeconds := some 5
    DNSPolicy := "Default"
    SchedulerName := "custom-scheduler" }

/-- Hints that try to override everything they can. -/
def pushyHints : commonParams :=
  { tag := "v9.9.9"
    useStrictSecurity := some true
    license := some { Key := some "license-key-value" }
    imagePullSecrets := [{ Name := "regcred" }] }

/-- A default record with every field filled. -/
def fullDefaults : ApplicationDefaults :=
  { Image := "victoriametrics/app"
    Version := "v1.119.0"
    Port := "8429"
    UseDefaultResources := true
    Resource := { Limit := [("cpu", "1"), ("memory", "1Gi")],
                  Request := [("cpu", "500m"), ("memory", "512Mi")] }
    TerminationGracePeriodSeconds := 30 }

/-- An environment whose operator-wide switches are both on. -/
def strictEnv : Env :=
  { cfg := { EnableStrictSecurity := true, DisableSelfServiceScrapeCreation := true }
    formatContainerImage := fun _ image => image
    Resources := Resources }

/-- An environment whose image formatter is idempotent but blanks every image other
than `b`: it maps the non-empty repository `a` to the empty string. -/
def blankingEnv : Env :=
  { cfg := {}
    formatContainerImage := fun _ image => if image = "b" then "b" else ""
    Resources := Resources }

/-- A block with no field set. -/
def emptyBlock : CommonAppsParams := {}

/-- A block with strict security enabled and a custom security context that only fixes
the user id at pod level. -/
def customSecurityBlock : CommonAppsParams :=
  { UseStrictSecurity := some true
    SecurityContext := some { PodSecurityContext := some { RunAsUser := some 1000 } } }

/-- An environment whose configuration has a config-reloader image and a backup version,
but no version for the alerting kind. -/
def reloaderEnv : Env :=
  { cfg := { ConfigReloader := { Image := "victoriametrics/operator:config-reloader" }
             VMBackup := { Version := "v1.119.0", Port := "8300" } }
    formatContainerImage := fun _ image => image
    Resources := Resources }

/-- An environment with a container registry and a formatter that prepends it to every
image, and with no config-reloader image configured. -/
def registryEnv : Env :=
  { cfg := { ContainerRegistry := "my.registry" }
    formatContainerImage := fun registry image => registry ++ "/" ++ image
    Resources := Resources }

/-- A cluster CR pinned to `v1.120.0-cluster` with a license key: storage (with a backup
sidecar) and select leave their tag to the cluster, insert sets its own tag, and the load
balancer is enabled. -/
def licensedCluster : VMCluster :=
  { Spec :=
    { ClusterVersion := "v1.120.0-cluster"
      License := some { Key := some "license-key-value" }
      VMStorage := some { VMBackup := some {} }
      VMInsert := some { CommonAppsParams := { Image := { Tag := "v1.0.0" } } }
      VMSelect := some {}
      RequestsLoadBalancer := { Enabled := true } } }

/-- A Deployment with nothing set. -/
def bareDeployment : appsv1.Deployment := {}

/-- A Deployment with the Recreate strategy and every other defaulted field set. -/
def recreateDeployment : appsv1.Deployment :=
  { Spec :=
    { Replicas := some 3
      Strategy := { Typ := "Recreate" }
      RevisionHistoryLimit := some 2
      ProgressDeadlineSeconds := some 60 } }

/-- A Deployment that only fixes the maxUnavailable of its rolling update. -/
def pinnedDeployment : appsv1.Deployment :=
  { Spec :=
    { Strategy :=
      { Typ := "RollingUpdate"
        RollingUpdate := some { MaxUnavailable := some (intstr.FromInt32 1) } } } }

/-- A Service of type LoadBalancer with one port whose Port is 0 and session affinity
ClientIP with a partially filled affinity config. -/
def loadBalancerService : corev1.Service :=
  { Spec :=
    { Typ := "LoadBalancer"
      Ports := [{ Name := "http", Port := 0 }]
      SessionAffinity := "ClientIP"
      SessionAffinityConfig := some { ClientIP := some {} } } }

/-- A Service with nothing set but an explicit node-port allocation flag. -/
def plainService : corev1.Service :=
  { Spec := { AllocateLoadBalancerNodePorts := some false } }

/-- Two containers without a security context. -/
def twoContainers : List corev1.Container :=
  [{ Name := "app", Image := "app:v1" }, { Name := "sidecar", Image := "sidecar:v1" }]

/-- A block with strict security unset and a custom security context that has a
container-level and a pod-level part. -/
def customContainerBlock : CommonAppsParams :=
  { SecurityContext := some
      { PodSecurityContext := some { RunAsUser := some 1000, RunAsNonRoot := some true }
        ContainerSecurityContext := some { Privileged := some false } } }

/-! ## Lemmas on the string operations -/

theorem hasPrefix_v (s : String) : strings.HasPrefix s "v" = true ↔ ∃ r, s.data = 'v' :: r := by
  unfold strings.HasPrefix
  show (['v'].isPrefixOf s.data = true) ↔ _
  cases h : s.data with
  | nil => simp [List.isPrefixOf]
  | cons a r =>
    simp only [List.isPrefixOf, Bool.and_true, beq_iff_eq, List.cons.injEq, and_true, exists_eq']
    constructor
    · intro h; exact ⟨r, h.symm, rfl⟩
    · rintro ⟨_, h, _⟩; exact h.symm

theorem index_ne_neg_one (s : String) (c : Char) : strings.Index s c ≠ -1 ↔ c ∈ s.data := by
  unfold strings.Index
  split
  · simp [*]
  · simp [*]

theorem addEnt_of_not_shape (s : String) (h : ¬ tagShape s.data) : addEntSuffixToTag s = s := by
  unfold addEntSuffixToTag
  by_cases h1 : strings.HasPrefix s "v" = true
  · by_cases h2 : strings.Count s '.' = 2
    · have h3 : '@' ∈ s.data := by
        by_contra h3
        exact h ⟨(hasPrefix_v s).1 h1, h2, h3⟩
      have h4 := (index_ne_neg_one s '@').2 h3
      simp [h1, h2, h4]
    · simp [h1, h2]
  · simp [h1]

theorem first_split {c : Char} {l : List Char} (h : c ∈ l) :
    ∃ l₁ l₂, l = l₁ ++ c :: l₂ ∧ c ∉ l₁ := by
  induction l with
  | nil => simp at h
  | cons a t ih =>
    by_cases hac : c = a
    · exact ⟨[], t, by simp [hac], by simp⟩
    · have ht : c ∈ t := by
        rcases List.mem_cons.1 h with h | h
        · exact absurd h hac
        · exact h
      obtain ⟨l₁, l₂, e, hn⟩ := ih ht
      exact ⟨a :: l₁, l₂, by simp [e], by simp [hac, hn]⟩

theorem indexOf_split {c : Char} {l₁ l₂ : List Char} (hn : c ∉ l₁) :
    (l₁ ++ c :: l₂).indexOf c = l₁.length := by
  rw [List.indexOf_append_of_not_mem hn]; simp


theorem addEnt_no_dash (s : String) (h : tagShape s.data) (hd : '-' ∉ s.data) :
    addEntSuffixToTag s = s ++ "-enterprise" := by
  obtain ⟨h1, h2, h3⟩ := h
  have p1 := (hasPrefix_v s).2 h1
  have p3 : strings.Index s '@' = -1 := by
    by_contra hc; exact h3 ((index_ne_neg_one s '@').1 hc)
  have p4 : strings.Index s '-' = -1 := by
    by_contra hc; exact hd ((index_ne_neg_one s '-').1 hc)
  unfold addEntSuffixToTag
  simp [p1, strings.Count, h2, p3, p4]

theorem addEnt_dash (l₁ l₂ : List Char) (h : tagShape (l₁ ++ '-' :: l₂)) (hn : '-' ∉ l₁) :
    addEntSuffixToTag ⟨l₁ ++ '-' :: l₂⟩ =
      if '-' :: l₂ = "-cluster".data then ⟨l₁ ++ "-enterprise-cluster".data⟩
      else ⟨l₁ ++ '-' :: l₂⟩ := by
  have hs := h
  obtain ⟨h1, h2, h3⟩ := h
  have p1 := (hasPrefix_v ⟨l₁ ++ '-' :: l₂⟩).2 h1
  have p3 : strings.Index ⟨l₁ ++ '-' :: l₂⟩ '@' = -1 := by
    by_contra hc; exact h3 ((index_ne_neg_one _ '@').1 hc)
  have hpos : 0 < l₁.length := by
    obtain ⟨r, hr⟩ := h1
    cases l₁ with
    | nil => simp at hr
    | cons a t => simp
  have p4 : strings.Index ⟨l₁ ++ '-' :: l₂⟩ '-' = (l₁.length : Int) := by
    unfold strings.Index
    simp [indexOf_split hn]
  unfold addEntSuffixToTag
  simp only [p1, strings.Count, h2, p3, p4]
  simp only [hpos, sliceFrom, sliceTo, String.ext_iff]
  split_ifs <;> simp_all


theorem tagShape_append {l x : List Char} (hl : tagShape l) (hx1 : x.count '.' = 0)
    (hx2 : '@' ∉ x) : tagShape (l ++ x) := by
  obtain ⟨⟨r, hr⟩, h2, h3⟩ := hl
  refine ⟨⟨r ++ x, by simp [hr]⟩, by simp [h2, hx1], by simp [h3, hx2]⟩

theorem tagShape_of_append {l x : List Char} (h : tagShape (l ++ x)) (hl : l ≠ [])
    (hx1 : x.count '.' = 0) : tagShape l := by
  obtain ⟨⟨r, hr⟩, h2, h3⟩ := h
  refine ⟨?_, ?_, ?_⟩
  · cases l with
    | nil => exact absurd rfl hl
    | cons a t =>
      simp only [List.cons_append, List.cons.injEq] at hr
      exact ⟨t, by rw [hr.1]⟩
  · simpa [hx1] using h2
  · intro hm; exact h3 (List.mem_append_left _ hm)

theorem tagShape_prefix_ne_nil {l x : List Char} (h : tagShape (l ++ '-' :: x)) : l ≠ [] := by
  obtain ⟨⟨r, hr⟩, -, -⟩ := h
  intro hl
  subst hl
  simp at hr

/-- C3: `addEntSuffixToTag` is idempotent: rewriting a tag that was already rewritten
returns it unchanged, for every string. -/
theorem addEntSuffixToTag_idempotent (t : String) :
    addEntSuffixToTag (addEntSuffixToTag t) = addEntSuffixToTag t := by
  by_cases hs : tagShape t.data
  · by_cases hd : '-' ∈ t.data
    · obtain ⟨l₁, l₂, e, hn⟩ := first_split hd
      have ht : t = ⟨l₁ ++ '-' :: l₂⟩ := String.ext e
      subst ht
      rw [addEnt_dash l₁ l₂ hs hn]
      split_ifs with hc
      · have hne := tagShape_prefix_ne_nil hs
        have hl : tagShape l₁ := tagShape_of_append hs hne (by rw [hc]; decide)
        have hs2 : tagShape (l₁ ++ '-' :: "enterprise-cluster".data) :=
          tagShape_append hl (by decide) (by decide)
        have := addEnt_dash l₁ "enterprise-cluster".data hs2 hn
        rw [if_neg (by decide)] at this
        exact this
      · rw [addEnt_dash l₁ l₂ hs hn, if_neg hc]
    · rw [addEnt_no_dash t hs hd]
      have hs2 : tagShape (t.data ++ '-' :: "enterprise".data) :=
        tagShape_append hs (by decide) (by decide)
      have := addEnt_dash t.data "enterprise".data hs2 hd
      rw [if_neg (by decide)] at this
      exact this
  · rw [addEnt_of_not_shape t hs]
    exact addEnt_of_not_shape t hs


theorem prefix_v_iff (d : List Char) : "v".data <+: d ↔ ∃ r, d = 'v' :: r := by
  constructor
  · rintro ⟨r, hr⟩
    exact ⟨r, hr.symm⟩
  · rintro ⟨r, hr⟩
    exact ⟨r, hr.symm⟩

/-- C4: a tag that starts with `v`, holds exactly two `.` and neither `@` nor `-` gets
`-enterprise` appended. -/
theorem addEntSuffixToTag_plain (t : String) (h1 : "v".data <+: t.data)
    (h2 : t.data.count '.' = 2) (h3 : '@' ∉ t.data) (h4 : '-' ∉ t.data) :
    addEntSuffixToTag t = t ++ "-enterprise" :=
  addEnt_no_dash t ⟨(prefix_v_iff _).1 h1, h2, h3⟩ h4

/-- Witness of C4: `v1.120.0` gives `v1.120.0-enterprise`. -/
theorem addEntSuffixToTag_plain_witness :
    addEntSuffixToTag "v1.120.0" = "v1.120.0" ++ "-enterprise" ∧
      "v1.120.0" ++ "-enterprise" = "v1.120.0-enterprise" :=
  ⟨addEntSuffixToTag_plain "v1.120.0" (by decide) (by decide) (by decide) (by decide),
    by decide⟩

/-- C5: for a tag `p ++ "-cluster"` where `p` starts with `v`, holds exactly two `.` and
neither `-` nor `@`, the rewrite returns `p ++ "-enterprise-cluster"`. -/
theorem addEntSuffixToTag_cluster (p : String) (h1 : "v".data <+: p.data)
    (h2 : p.data.count '.' = 2) (h3 : '@' ∉ p.data) (h4 : '-' ∉ p.data) :
    addEntSuffixToTag (p ++ "-cluster") = p ++ "-enterprise-cluster" := by
  have hp : tagShape p.data := ⟨(prefix_v_iff _).1 h1, h2, h3⟩
  have hs : tagShape (p.data ++ '-' :: "cluster".data) :=
    tagShape_append hp (by decide) (by decide)
  have h := addEnt_dash p.data "cluster".data hs h4
  rw [if_pos rfl] at h
  exact h

/-- Witness of C5: `v1.120.0-cluster` gives `v1.120.0-enterprise-cluster`. -/
theorem addEntSuffixToTag_cluster_witness :
    addEntSuffixToTag ("v1.120.0" ++ "-cluster") = "v1.120.0" ++ "-enterprise-cluster" ∧
      "v1.120.0" ++ "-cluster" = "v1.120.0-cluster" ∧
      "v1.120.0" ++ "-enterprise-cluster" = "v1.120.0-enterprise-cluster" :=
  ⟨addEntSuffixToTag_cluster "v1.120.0" (by decide) (by decide) (by decide) (by decide),
    by decide, by decide⟩

/-- C6: the rewrite returns its input unchanged when the tag does not start with `v`, or
does not hold exactly two `.`, or holds an `@`, or holds a `-` and the text from its
first `-` to the end is not exactly `-cluster`. -/
theorem addEntSuffixToTag_unchanged (t : String)
    (h : ¬ ("v".data <+: t.data) ∨ t.data.count '.' ≠ 2 ∨ '@' ∈ t.data ∨
      ('-' ∈ t.data ∧ t.data.drop (t.data.indexOf '-') ≠ "-cluster".data)) :
    addEntSuffixToTag t = t := by
  by_cases hs : tagShape t.data
  · obtain ⟨s1, s2, s3⟩ := hs
    rcases h with h | h | h | ⟨hd, hne⟩
    · exact absurd ((prefix_v_iff _).2 s1) h
    · exact absurd s2 h
    · exact absurd h s3
    · obtain ⟨l₁, l₂, e, hn⟩ := first_split hd
      have ht : t = ⟨l₁ ++ '-' :: l₂⟩ := String.ext e
      subst ht
      have hdrop : (l₁ ++ '-' :: l₂).drop ((l₁ ++ '-' :: l₂).indexOf '-') = '-' :: l₂ := by
        rw [indexOf_split hn]
        simp
      rw [addEnt_dash l₁ l₂ ⟨s1, s2, s3⟩ hn, if_neg]
      intro hc
      exact hne (hdrop.trans hc)
  · exact addEnt_of_not_shape t hs

/-- Witness of C6: `v1`, `1.120.0`, `v1.120.0-rc1` and `v1.120.0-cluster@sha256xxx` are
returned unchanged. -/
theorem addEntSuffixToTag_unchanged_witness :
    addEntSuffixToTag "v1" = "v1" ∧ addEntSuffixToTag "1.120.0" = "1.120.0" ∧
      addEntSuffixToTag "v1.120.0-rc1" = "v1.120.0-rc1" ∧
      addEntSuffixToTag "v1.120.0-cluster@sha256xxx" = "v1.120.0-cluster@sha256xxx" :=
  ⟨addEntSuffixToTag_unchanged "v1" (Or.inr (Or.inl (by decide))),
    addEntSuffixToTag_unchanged "1.120.0" (Or.inl (by decide)),
    addEntSuffixToTag_unchanged "v1.120.0-rc1" (Or.inr (Or.inr (Or.inr (by decide)))),
    addEntSuffixToTag_unchanged "v1.120.0-cluster@sha256xxx"
      (Or.inr (Or.inr (Or.inl (by decide))))⟩

/-! ## `addDefaultsToCommonParams`, field by field -/

theorem string_length_pos (s : String) : s.length > 0 ↔ s ≠ "" := by
  rw [ne_eq, String.ext_iff]
  show s.data.length > 0 ↔ ¬ s.data = []
  cases s.data <;> simp

theorem add_Repository (env : Env) (b : CommonAppsParams) (cp : Option commonParams)
    (d : ApplicationDefaults) :
    (addDefaultsToCommonParams env b cp d).Image.Repository =
      env.formatContainerImage env.cfg.ContainerRegistry
        (if b.Image.Repository = "" then d.Image else b.Image.Repository) := by
  unfold addDefaultsToCommonParams
  cases cp <;>
    simp only [apply_ite CommonAppsParams.Image, apply_ite Image.Repository, ite_self]

theorem add_Tag (env : Env) (b : CommonAppsParams) (cp : Option commonParams)
    (d : ApplicationDefaults) :
    (addDefaultsToCommonParams env b cp d).Image.Tag =
      if b.Image.Tag = "" then
        match cp with
        | none => d.Version
        | some p =>
          if License.IsProvided p.license then
            addEntSuffixToTag (if p.tag ≠ "" then p.tag else d.Version)
          else (if p.tag ≠ "" then p.tag else d.Version)
      else b.Image.Tag := by
  unfold addDefaultsToCommonParams
  cases cp with
  | none => simp only [apply_ite CommonAppsParams.Image, apply_ite Image.Tag, ite_self]
  | some p =>
    simp only [apply_ite CommonAppsParams.Image, apply_ite Image.Tag, ite_self,
      string_length_pos]

theorem add_PullPolicy (env : Env) (b : CommonAppsParams) (cp : Option commonParams)
    (d : ApplicationDefaults) :
    (addDefaultsToCommonParams env b cp d).Image.PullPolicy =
      if b.Image.PullPolicy = "" then PullIfNotPresent else b.Image.PullPolicy := by
  unfold addDefaultsToCommonParams
  cases cp <;>
    simp only [apply_ite CommonAppsParams.Image, apply_ite Image.PullPolicy, ite_self]

theorem add_ImagePullSecrets (env : Env) (b : CommonAppsParams) (cp : Option commonParams)
    (d : ApplicationDefaults) :
    (addDefaultsToCommonParams env b cp d).ImagePullSecrets =
      match cp with
      | none => b.ImagePullSecrets
      | some p => b.ImagePullSecrets ++ p.imagePullSecrets := by
  unfold addDefaultsToCommonParams
  cases cp <;> simp only [apply_ite CommonAppsParams.ImagePullSecrets, ite_self]

theorem add_UseStrictSecurity (env : Env) (b : CommonAppsParams) (cp : Option commonParams)
    (d : ApplicationDefaults) :
    (addDefaultsToCommonParams env b cp d).UseStrictSecurity =
      match b.UseStrictSecurity with
      | some v => some v
      | none =>
        match cp with
        | some p =>
          match p.useStrictSecurity with
          | some v => some v
          | none => if env.cfg.EnableStrictSecurity = true then some true else none
        | none => if env.cfg.EnableStrictSecurity = true then some true else none := by
  unfold addDefaultsToCommonParams
  cases cp with
  | none =>
    simp only [apply_ite CommonAppsParams.UseStrictSecurity, ite_self]
    cases b.UseStrictSecurity <;> cases env.cfg.EnableStrictSecurity <;> simp
  | some p =>
    simp only [apply_ite CommonAppsParams.UseStrictSecurity, ite_self]
    cases b.UseStrictSecurity <;> cases p.useStrictSecurity <;>
      cases env.cfg.EnableStrictSecurity <;> simp

theorem add_DisableSelfServiceScrape (env : Env) (b : CommonAppsParams)
    (cp : Option commonParams) (d : ApplicationDefaults) :
    (addDefaultsToCommonParams env b cp d).DisableSelfServiceScrape =
      if b.DisableSelfServiceScrape = none then some env.cfg.DisableSelfServiceScrapeCreation
      else b.DisableSelfServiceScrape := by
  unfold addDefaultsToCommonParams
  cases cp <;> simp only [apply_ite CommonAppsParams.DisableSelfServiceScrape, ite_self]

theorem add_Port (env : Env) (b : CommonAppsParams) (cp : Option commonParams)
    (d : ApplicationDefaults) :
    (addDefaultsToCommonParams env b cp d).Port =
      if b.Port = "" then d.Port else b.Port := by
  unfold addDefaultsToCommonParams
  cases cp <;> simp only [apply_ite CommonAppsParams.Port, ite_self]

theorem add_UseDefaultResources (env : Env) (b : CommonAppsParams)
    (cp : Option commonParams) (d : ApplicationDefaults) :
    (addDefaultsToCommonParams env b cp d).UseDefaultResources =
      if b.UseDefaultResources = none ∧ d.UseDefaultResources = true then
        some d.UseDefaultResources
      else b.UseDefaultResources := by
  unfold addDefaultsToCommonParams
  cases cp <;> simp only [apply_ite CommonAppsParams.UseDefaultResources, ite_self]

theorem add_TerminationGracePeriodSeconds (env : Env) (b : CommonAppsParams)
    (cp : Option commonParams) (d : ApplicationDefaults) :
    (addDefaultsToCommonParams env b cp d).TerminationGracePeriodSeconds =
      if b.TerminationGracePeriodSeconds = none then some d.TerminationGracePeriodSeconds
      else b.TerminationGracePeriodSeconds := by
  unfold addDefaultsToCommonParams
  cases cp <;>
    simp only [apply_ite CommonAppsParams.TerminationGracePeriodSeconds, ite_self]

theorem add_DNSPolicy (env : Env) (b : CommonAppsParams) (cp : Option commonParams)
    (d : ApplicationDefaults) :
    (addDefaultsToCommonParams env b cp d).DNSPolicy =
      if b.DNSPolicy = "" then DNSClusterFirst else b.DNSPolicy := by
  unfold addDefaultsToCommonParams
  cases cp <;> simp only [apply_ite CommonAppsParams.DNSPolicy, ite_self]

theorem add_SchedulerName (env : Env) (b : CommonAppsParams) (cp : Option commonParams)
    (d : ApplicationDefaults) :
    (addDefaultsToCommonParams env b cp d).SchedulerName =
      if b.SchedulerName = "" then "default-scheduler" else b.SchedulerName := by
  unfold addDefaultsToCommonParams
  cases cp <;> simp only [apply_ite CommonAppsParams.SchedulerName, ite_self]

theorem add_Resources (env : Env) (b : CommonAppsParams) (cp : Option commonParams)
    (d : ApplicationDefaults) :
    (addDefaultsToCommonParams env b cp d).Resources =
      env.Resources b.Resources d.Resource
        (match b.UseDefaultResources with
         | some v => v
         | none => d.UseDefaultResources) := by
  unfold addDefaultsToCommonParams
  cases cp with
  | none =>
    simp only [apply_ite CommonAppsParams.Resources,
      apply_ite CommonAppsParams.UseDefaultResources, ite_self]
    cases b.UseDefaultResources <;> cases d.UseDefaultResources <;> simp
  | some p =>
    simp only [apply_ite CommonAppsParams.Resources,
      apply_ite CommonAppsParams.UseDefaultResources, ite_self]
    cases b.UseDefaultResources <;> cases d.UseDefaultResources <;> simp

theorem add_SecurityContext (env : Env) (b : CommonAppsParams) (cp : Option commonParams)
    (d : ApplicationDefaults) :
    (addDefaultsToCommonParams env b cp d).SecurityContext = b.SecurityContext := by
  unfold addDefaultsToCommonParams
  cases cp <;> simp only [apply_ite CommonAppsParams.SecurityContext, ite_self]

/-! ## Image tag -/

/-- C1: when the image tag of the block is unset, `addDefaultsToCommonParams` sets it to
`base` if the hints are nil or carry no provided license and to `addEntSuffixToTag base`
if the hints carry a provided license, where `base` is the hints tag when the hints are
non-nil and their tag is non-empty, and the default record version otherwise. -/
theorem addDefaultsToCommonParams_tag_unset (env : Env) (b : CommonAppsParams)
    (cp : Option commonParams) (d : ApplicationDefaults) (h : b.Image.Tag = "") :
    (addDefaultsToCommonParams env b cp d).Image.Tag =
      match cp with
      | none => d.Version
      | some p =>
        if License.IsProvided p.license then
          addEntSuffixToTag (if p.tag ≠ "" then p.tag else d.Version)
        else (if p.tag ≠ "" then p.tag else d.Version) := by
  rw [add_Tag, if_pos h]

/-- Witness of C1: unset tag, default version `v1.120.0-cluster` and a license key give
`v1.120.0-enterprise-cluster`. -/
theorem addDefaultsToCommonParams_tag_unset_witness :
    (addDefaultsToCommonParams testEnv {} (some licensedHints)
      { Version := "v1.120.0-cluster" }).Image.Tag = "v1.120.0-enterprise-cluster" :=
  (addDefaultsToCommonParams_tag_unset testEnv {} (some licensedHints)
    { Version := "v1.120.0-cluster" } rfl).trans (by decide)

/-- C2: when the image tag of the block is already non-empty, the tag after
`addDefaultsToCommonParams` equals the tag before it, whatever the hints (nil, with or
without a tag, with or without a license) and the default record. -/
theorem addDefaultsToCommonParams_tag_set (env : Env) (b : CommonAppsParams)
    (cp : Option commonParams) (d : ApplicationDefaults) (h : b.Image.Tag ≠ "") :
    (addDefaultsToCommonParams env b cp d).Image.Tag = b.Image.Tag := by
  rw [add_Tag, if_neg h]

/-- Witness of C2: tag `v1.120.0`, default version `v1.119.0` and a license key leave
`v1.120.0`. -/
theorem addDefaultsToCommonParams_tag_set_witness :
    (addDefaultsToCommonParams testEnv { Image := { Tag := "v1.120.0" } }
      (some licensedHints) { Version := "v1.119.0" }).Image.Tag = "v1.120.0" :=
  addDefaultsToCommonParams_tag_set testEnv { Image := { Tag := "v1.120.0" } }
    (some licensedHints) { Version := "v1.119.0" } (by decide)

/-! ## Preservation and precedence -/

/-- C8: each of the fields Image.Tag, Image.PullPolicy, Port, UseStrictSecurity,
UseDefaultResources, TerminationGracePeriodSeconds, DNSPolicy, SchedulerName and
DisableSelfServiceScrape that is already set on input (non-empty string, non-nil pointer)
is equal to its input value after `addDefaultsToCommonParams`, whatever the hints, the
default record and the base configuration. -/
theorem addDefaultsToCommonParams_preserves (env : Env) (b : CommonAppsParams)
    (cp : Option commonParams) (d : ApplicationDefaults) :
    (b.Image.Tag ≠ "" →
      (addDefaultsToCommonParams env b cp d).Image.Tag = b.Image.Tag) ∧
    (b.Image.PullPolicy ≠ "" →
      (addDefaultsToCommonParams env b cp d).Image.PullPolicy = b.Image.PullPolicy) ∧
    (b.Port ≠ "" → (addDefaultsToCommonParams env b cp d).Port = b.Port) ∧
    (b.UseStrictSecurity ≠ none →
      (addDefaultsToCommonParams env b cp d).UseStrictSecurity = b.UseStrictSecurity) ∧
    (b.UseDefaultResources ≠ none →
      (addDefaultsToCommonParams env b cp d).UseDefaultResources = b.UseDefaultResources) ∧
    (b.TerminationGracePeriodSeconds ≠ none →
      (addDefaultsToCommonParams env b cp d).TerminationGracePeriodSeconds =
        b.TerminationGracePeriodSeconds) ∧
    (b.DNSPolicy ≠ "" → (addDefaultsToCommonParams env b cp d).DNSPolicy = b.DNSPolicy) ∧
    (b.SchedulerName ≠ "" →
      (addDefaultsToCommonParams env b cp d).SchedulerName = b.SchedulerName) ∧
    (b.DisableSelfServiceScrape ≠ none →
      (addDefaultsToCommonParams env b cp d).DisableSelfServiceScrape =
        b.DisableSelfServiceScrape) := by
  refine ⟨?_, ?_, ?_, ?_, ?_, ?_, ?_, ?_, ?_⟩
  · intro h; rw [add_Tag, if_neg h]
  · intro h; rw [add_PullPolicy, if_neg h]
  · intro h; rw [add_Port, if_neg h]
  · intro h
    rw [add_UseStrictSecurity]
    cases hb : b.UseStrictSecurity with
    | none => exact absurd hb h
    | some v => rfl
  · intro h; rw [add_UseDefaultResources, if_neg (fun hc => h hc.1)]
  · intro h; rw [add_TerminationGracePeriodSeconds, if_neg h]
  · intro h; rw [add_DNSPolicy, if_neg h]
  · intro h; rw [add_SchedulerName, if_neg h]
  · intro h; rw [add_DisableSelfServiceScrape, if_neg h]

/-- Witness of C8: a block with all nine fields set keeps them against hints that carry a
tag, a license and strict security, a filled default record and a configuration with both
switches on. -/
theorem addDefaultsToCommonParams_preserves_witness :
    (addDefaultsToCommonParams strictEnv fullBlock (some pushyHints) fullDefaults).Image.Tag
        = "v1.0.0" ∧
    (addDefaultsToCommonParams strictEnv fullBlock (some pushyHints)
        fullDefaults).Image.PullPolicy = "Always" ∧
    (addDefaultsToCommonParams strictEnv fullBlock (some pushyHints) fullDefaults).Port
        = "9000" ∧
    (addDefaultsToCommonParams strictEnv fullBlock (some pushyHints)
        fullDefaults).UseStrictSecurity = some false ∧
    (addDefaultsToCommonParams strictEnv fullBlock (some pushyHints)
        fullDefaults).UseDefaultResources = some false ∧
    (addDefaultsToCommonParams strictEnv fullBlock (some pushyHints)
        fullDefaults).TerminationGracePeriodSeconds = some 5 ∧
    (addDefaultsToCommonParams strictEnv fullBlock (some pushyHints) fullDefaults).DNSPolicy
        = "Default" ∧
    (addDefaultsToCommonParams strictEnv fullBlock (some pushyHints)
        fullDefaults).SchedulerName = "custom-scheduler" ∧
    (addDefaultsToCommonParams strictEnv fullBlock (some pushyHints)
        fullDefaults).DisableSelfServiceScrape = some true :=
  have h := addDefaultsToCommonParams_preserves strictEnv fullBlock (some pushyHints)
    fullDefaults
  ⟨h.1 (by decide), h.2.1 (by decide), h.2.2.1 (by decide), h.2.2.2.1 (by decide),
    h.2.2.2.2.1 (by decide), h.2.2.2.2.2.1 (by decide), h.2.2.2.2.2.2.1 (by decide),
    h.2.2.2.2.2.2.2.1 (by decide), h.2.2.2.2.2.2.2.2 (by decide)⟩

/-- C9: the UseStrictSecurity flag after `addDefaultsToCommonParams` is the value of the
block if it was set; otherwise the hints value if hints are present and it is set (an
explicit false of the hints is kept even when the operator-wide switch is on); otherwise
true if the operator-wide EnableStrictSecurity switch is on; otherwise it stays unset. -/
theorem addDefaultsToCommonParams_strict_security (env : Env) (b : CommonAppsParams)
    (cp : Option commonParams) (d : ApplicationDefaults) :
    (addDefaultsToCommonParams env b cp d).UseStrictSecurity =
      match b.UseStrictSecurity with
      | some v => some v
      | none =>
        match cp with
        | some p =>
          match p.useStrictSecurity with
          | some v => some v
          | none => if env.cfg.EnableStrictSecurity = true then some true else none
        | none => if env.cfg.EnableStrictSecurity = true then some true else none :=
  add_UseStrictSecurity env b cp d

/-! ## Resources -/

/-- C10: `addDefaultsToCommonParams` sets Resources to the resolver applied to the input
Resources, the default resource profile of the kind and the effective flag, which is the
UseDefaultResources value of the block if set and the one of the default record
otherwise; an explicit false on the block is not overridden by a default of true; and
with the resolver of §4.1, the flag false and an empty input block, the result is
empty. -/
theorem addDefaultsToCommonParams_resources (env : Env) (b : CommonAppsParams)
    (cp : Option commonParams) (d : ApplicationDefaults) :
    (addDefaultsToCommonParams env b cp d).Resources =
        env.Resources b.Resources d.Resource
          (match b.UseDefaultResources with
           | some v => v
           | none => d.UseDefaultResources) ∧
    (b.UseDefaultResources = some false →
      (addDefaultsToCommonParams env b cp d).Resources =
        env.Resources b.Resources d.Resource false) ∧
    (env.Resources = Resources →
      (match b.UseDefaultResources with
       | some v => v
       | none => d.UseDefaultResources) = false →
      b.Resources = {} →
      (addDefaultsToCommonParams env b cp d).Resources = {}) := by
  refine ⟨add_Resources env b cp d, ?_, ?_⟩
  · intro h
    rw [add_Resources, h]
  · intro he hf hb
    rw [add_Resources, hf, he, hb]
    rfl

/-- Witness of C10: an explicit false on the block against a default record that opts in
and carries a profile: the resolver is called with the flag false and the empty resource
block stays empty. -/
theorem addDefaultsToCommonParams_resources_witness :
    fullDefaults.UseDefaultResources = true ∧
    (addDefaultsToCommonParams testEnv { UseDefaultResources := some false }
      (some pushyHints) fullDefaults).Resources =
        testEnv.Resources {} fullDefaults.Resource false ∧
    (addDefaultsToCommonParams testEnv { UseDefaultResources := some false }
      (some pushyHints) fullDefaults).Resources = {} :=
  have h := addDefaultsToCommonParams_resources testEnv { UseDefaultResources := some false }
    (some pushyHints) fullDefaults
  ⟨rfl, h.2.1 rfl, h.2.2 rfl rfl rfl⟩

/-! ## Idempotence of the merge -/

theorem has_append (l₁ l₂ : ResourceList) (n : String) :
    ResourceList.has (l₁ ++ l₂) n = (ResourceList.has l₁ n || ResourceList.has l₂ n) := by
  simp [ResourceList.has]

theorem has_of_mem {l : ResourceList} {e : String × String} (h : e ∈ l) :
    ResourceList.has l e.1 = true := by
  simp only [ResourceList.has, List.any_eq_true]
  exact ⟨e, h, by simp⟩

theorem specifies_Resources (r : ResourceRequirements) (p : Resource)
    (e : String × String) (h : e ∈ p.Limit ∨ e ∈ p.Request) :
    (Resources r p true).specifies e.1 = true := by
  simp only [Resources, if_true, ResourceRequirements.specifies, has_append,
    Bool.or_eq_true]
  by_cases hs : r.specifies e.1 = true
  · simp only [ResourceRequirements.specifies, Bool.or_eq_true] at hs
    rcases hs with hs | hs
    · exact Or.inl (Or.inl hs)
    · exact Or.inr (Or.inl hs)
  · have hn : (!r.specifies e.1) = true := by simpa using hs
    rcases h with h | h
    · exact Or.inr (Or.inr (has_of_mem (List.mem_filter.2 ⟨h, hn⟩)))
    · exact Or.inl (Or.inr (has_of_mem (List.mem_filter.2 ⟨h, hn⟩)))

/-- The resolver of §4.1 is idempotent. -/
theorem Resources_idempotent (r : ResourceRequirements) (p : Resource) (f : Bool) :
    Resources (Resources r p f) p f = Resources r p f := by
  cases f with
  | false => rfl
  | true =>
    have hL : p.Limit.filter (fun e => !(Resources r p true).specifies e.1) = [] := by
      rw [List.filter_eq_nil_iff]
      intro e he
      simp [specifies_Resources r p e (Or.inl he)]
    have hR : p.Request.filter (fun e => !(Resources r p true).specifies e.1) = [] := by
      rw [List.filter_eq_nil_iff]
      intro e he
      simp [specifies_Resources r p e (Or.inr he)]
    generalize Resources r p true = r1 at hL hR ⊢
    unfold Resources
    rw [if_pos rfl, hL, hR, List.append_nil, List.append_nil]

/-- C7, as stated, fails: the resource resolver and both image formatters below are
idempotent, yet (1) with hints that carry an image pull secret the second merge appends
the secret again, and (2) with a formatter that blanks the repository `a` the second merge
falls back to the default image `b`. -/
theorem addDefaultsToCommonParams_not_idempotent :
    (∀ r p f, testEnv.Resources (testEnv.Resources r p f) p f = testEnv.Resources r p f) ∧
    (∀ reg x, testEnv.formatContainerImage reg (testEnv.formatContainerImage reg x) =
      testEnv.formatContainerImage reg x) ∧
    addDefaultsToCommonParams testEnv
        (addDefaultsToCommonParams testEnv {} (some pushyHints) fullDefaults)
        (some pushyHints) fullDefaults ≠
      addDefaultsToCommonParams testEnv {} (some pushyHints) fullDefaults ∧
    (∀ reg x, blankingEnv.formatContainerImage reg (blankingEnv.formatContainerImage reg x) =
      blankingEnv.formatContainerImage reg x) ∧
    addDefaultsToCommonParams blankingEnv
        (addDefaultsToCommonParams blankingEnv { Image := { Repository := "a" } } none
          { Image := "b" })
        none { Image := "b" } ≠
      addDefaultsToCommonParams blankingEnv { Image := { Repository := "a" } } none
        { Image := "b" } := by
  refine ⟨Resources_idempotent, fun _ _ => rfl, by decide, ?_, by decide⟩
  intro reg x
  show (if (if x = "b" then "b" else "") = "b" then "b" else "") = if x = "b" then "b" else ""
  by_cases h : x = "b"
  · simp [h]
  · simp [h]

/-- C7, amended: for every block, hints value, default record and base configuration,
applying `addDefaultsToCommonParams` to the result of a first merge yields the result of
the first merge in every field but ImagePullSecrets, which is the list of the first result
followed once more by the pull secrets of the hints (nothing for nil hints); so the merge
is idempotent when the hints are nil or carry no pull secrets. This assumes that the image
formatter and the resource resolver are idempotent and that the formatter returns a
non-empty reference for a non-empty repository. -/
theorem addDefaultsToCommonParams_idempotent (env : Env) (b : CommonAppsParams)
    (cp : Option commonParams) (d : ApplicationDefaults)
    (hf : ∀ reg x, env.formatContainerImage reg (env.formatContainerImage reg x) =
      env.formatContainerImage reg x)
    (hne : ∀ reg x, x ≠ "" → env.formatContainerImage reg x ≠ "")
    (hr : ∀ r p f, env.Resources (env.Resources r p f) p f = env.Resources r p f) :
    addDefaultsToCommonParams env (addDefaultsToCommonParams env b cp d) cp d =
      { addDefaultsToCommonParams env b cp d with
        ImagePullSecrets :=
          (addDefaultsToCommonParams env b cp d).ImagePullSecrets ++
            (match cp with
             | none => []
             | some p => p.imagePullSecrets) } ∧
    ((∀ p, cp = some p → p.imagePullSecrets = []) →
      addDefaultsToCommonParams env (addDefaultsToCommonParams env b cp d) cp d =
        addDefaultsToCommonParams env b cp d) := by
  have main : addDefaultsToCommonParams env (addDefaultsToCommonParams env b cp d) cp d =
      { addDefaultsToCommonParams env b cp d with
        ImagePullSecrets :=
          (addDefaultsToCommonParams env b cp d).ImagePullSecrets ++
            (match cp with
             | none => []
             | some p => p.imagePullSecrets) } := by
    apply CommonAppsParams.ext
    · apply Image.ext
      · simp only [add_Repository]
        by_cases h1 : env.formatContainerImage env.cfg.ContainerRegistry
            (if b.Image.Repository = "" then d.Image else b.Image.Repository) = ""
        · rw [if_pos h1]
          by_cases h2 : b.Image.Repository = ""
          · rw [if_pos h2]
          · rw [if_neg h2] at h1
            exact absurd h1 (hne _ _ h2)
        · rw [if_neg h1, hf]
      · simp only [add_Tag]
        split_ifs <;> simp_all
      · simp only [add_PullPolicy]
        split_ifs <;> simp_all
    · simp only [add_ImagePullSecrets]
      cases cp with
      | none => simp
      | some p => rfl
    · simp only [add_UseStrictSecurity]
      cases b.UseStrictSecurity <;> cases cp <;> simp <;> split <;> simp_all
    · simp only [add_DisableSelfServiceScrape]
      split_ifs <;> simp_all
    · simp only [add_Port]
      split_ifs <;> simp_all
    · simp only [add_UseDefaultResources]
      split_ifs <;> simp_all
    · simp only [add_TerminationGracePeriodSeconds]
      split_ifs <;> simp_all
    · simp only [add_DNSPolicy]
      split_ifs <;> simp_all
    · simp only [add_SchedulerName]
      split_ifs <;> simp_all
    · simp only [add_Resources, add_UseDefaultResources]
      cases b.UseDefaultResources <;> cases d.UseDefaultResources <;> simp [hr]
    · simp only [add_SecurityContext]
  refine ⟨main, ?_⟩
  intro hs
  rw [main]
  cases cp with
  | none => simp
  | some p => simp [hs p rfl]

/-- Witness of C7, amended: against hints that carry the pull secret `regcred`, the
second merge differs from the first only by one more `regcred`; against hints with a
license but no pull secrets, the merge resolves the tag to `v1.119.0-enterprise` and
repeating it changes nothing. -/
theorem addDefaultsToCommonParams_idempotent_witness :
    addDefaultsToCommonParams testEnv
        (addDefaultsToCommonParams testEnv {} (some pushyHints) fullDefaults)
        (some pushyHints) fullDefaults =
      { addDefaultsToCommonParams testEnv {} (some pushyHints) fullDefaults with
        ImagePullSecrets := [{ Name := "regcred" }, { Name := "regcred" }] } ∧
    (addDefaultsToCommonParams testEnv {} (some pushyHints) fullDefaults).ImagePullSecrets =
      [{ Name := "regcred" }] ∧
    addDefaultsToCommonParams testEnv
        (addDefaultsToCommonParams testEnv {} (some licensedHints) fullDefaults)
        (some licensedHints) fullDefaults =
      addDefaultsToCommonParams testEnv {} (some licensedHints) fullDefaults ∧
    (addDefaultsToCommonParams testEnv {} (some licensedHints) fullDefaults).Image.Tag =
      "v1.119.0-enterprise" :=
  ⟨(addDefaultsToCommonParams_idempotent testEnv {} (some pushyHints) fullDefaults
      (fun _ _ => rfl) (fun _ _ h => h) Resources_idempotent).1.trans (by decide),
    by decide,
    (addDefaultsToCommonParams_idempotent testEnv {} (some licensedHints) fullDefaults
      (fun _ _ => rfl) (fun _ _ h => h) Resources_idempotent).2
      (fun p hp => by cases hp; rfl),
    by decide⟩

/-! ## The unit tests of `defaults_test.go`, replayed on the embedding -/

/-- The helper `f` of `TestAddEnterpriseTagToAppCommonDefaults`: the tag after the merge
of a block that only has `specVersion` against a record that only has `defaultVersion`. -/
theorem defaults_test_cases :
    let f := fun (specVersion defaultVersion : String) (cp : Option commonParams) =>
      (addDefaultsToCommonParams testEnv { Image := { Tag := specVersion } } cp
        { Version := defaultVersion }).Image.Tag
    f "v1.120.0" "" none = "v1.120.0" ∧
    f "v1.120.0" "v1.119.0" none = "v1.120.0" ∧
    f "v1.120.0" "v1.119.0" (some licensedHints) = "v1.120.0" ∧
    f "v1.120.0" "" (some licensedHints) = "v1.120.0" ∧
    f "v1.120.0-enterprise" "" (some licensedHints) = "v1.120.0-enterprise" ∧
    f "v1.120.0-enterprise-cluster" "" (some licensedHints) = "v1.120.0-enterprise-cluster" ∧
    f "" "v1.120.0" (some licensedHints) = "v1.120.0-enterprise" ∧
    f "" "v1.120.0-cluster" (some licensedHints) = "v1.120.0-enterprise-cluster" ∧
    f "" "v1.120.0-enterprise-cluster" (some licensedHints) = "v1.120.0-enterprise-cluster" ∧
    f "" "v1.120.0-enterprise" (some licensedHints) = "v1.120.0-enterprise" ∧
    f "" "v1" (some licensedHints) = "v1" ∧
    f "" "1.120.0" (some licensedHints) = "1.120.0" ∧
    f "" "v1.120.0-rc1" (some licensedHints) = "v1.120.0-rc1" ∧
    f "" "v1.120.0-enterprise-rc1" (some licensedHints) = "v1.120.0-enterprise-rc1" ∧
    f "" "v1.120.0-enterprise-cluster-rc1" (some licensedHints) =
      "v1.120.0-enterprise-cluster-rc1" ∧
    f "" "v1.120.0@sha256xxx" (some licensedHints) = "v1.120.0@sha256xxx" ∧
    f "" "v1.120.0-enterprise@sha256xxx" (some licensedHints) =
      "v1.120.0-enterprise@sha256xxx" ∧
    f "" "v1.120.0-cluster@sha256xxx" (some licensedHints) = "v1.120.0-cluster@sha256xxx" ∧
    f "" "v1.120.0-enterprise-cluster@sha256xxx" (some licensedHints) =
      "v1.120.0-enterprise-cluster@sha256xxx" := by
  decide

/-! ## Pull secrets and constant defaults -/

/-- C11: with non-nil hints the ImagePullSecrets list after `addDefaultsToCommonParams`
is the input list of the block followed by the list of the hints, in that order; with
nil hints the list is unchanged. -/
theorem addDefaultsToCommonParams_pull_secrets (env : Env) (b : CommonAppsParams)
    (d : ApplicationDefaults) :
    (∀ p : commonParams,
      (addDefaultsToCommonParams env b (some p) d).ImagePullSecrets =
        b.ImagePullSecrets ++ p.imagePullSecrets) ∧
    (addDefaultsToCommonParams env b none d).ImagePullSecrets = b.ImagePullSecrets :=
  ⟨fun p => add_ImagePullSecrets env b (some p) d, add_ImagePullSecrets env b none d⟩

/-- C12: each of these fields, when unset on input, holds the stated value after
`addDefaultsToCommonParams`: Port is the port of the default record, Image.PullPolicy is
`IfNotPresent`, DNSPolicy is `ClusterFirst`, SchedulerName is `default-scheduler`,
TerminationGracePeriodSeconds is the value of the default record and
DisableSelfServiceScrape is the operator-wide DisableSelfServiceScrapeCreation flag. -/
theorem addDefaultsToCommonParams_fills (env : Env) (b : CommonAppsParams)
    (cp : Option commonParams) (d : ApplicationDefaults) :
    (b.Port = "" → (addDefaultsToCommonParams env b cp d).Port = d.Port) ∧
    (b.Image.PullPolicy = "" →
      (addDefaultsToCommonParams env b cp d).Image.PullPolicy = "IfNotPresent") ∧
    (b.DNSPolicy = "" → (addDefaultsToCommonParams env b cp d).DNSPolicy = "ClusterFirst") ∧
    (b.SchedulerName = "" →
      (addDefaultsToCommonParams env b cp d).SchedulerName = "default-scheduler") ∧
    (b.TerminationGracePeriodSeconds = none →
      (addDefaultsToCommonParams env b cp d).TerminationGracePeriodSeconds =
        some d.TerminationGracePeriodSeconds) ∧
    (b.DisableSelfServiceScrape = none →
      (addDefaultsToCommonParams env b cp d).DisableSelfServiceScrape =
        some env.cfg.DisableSelfServiceScrapeCreation) := by
  refine ⟨?_, ?_, ?_, ?_, ?_, ?_⟩
  · intro h; rw [add_Port, if_pos h]
  · intro h; rw [add_PullPolicy, if_pos h]; rfl
  · intro h; rw [add_DNSPolicy, if_pos h]; rfl
  · intro h; rw [add_SchedulerName, if_pos h]
  · intro h; rw [add_TerminationGracePeriodSeconds, if_pos h]
  · intro h; rw [add_DisableSelfServiceScrape, if_pos h]

/-- Witness of C12: the empty block against a filled default record and a configuration
with the self-scrape switch on. -/
theorem addDefaultsToCommonParams_fills_witness :
    (addDefaultsToCommonParams strictEnv emptyBlock (some pushyHints) fullDefaults).Port
      = "8429" ∧
    (addDefaultsToCommonParams strictEnv emptyBlock (some pushyHints)
      fullDefaults).Image.PullPolicy = "IfNotPresent" ∧
    (addDefaultsToCommonParams strictEnv emptyBlock (some pushyHints) fullDefaults).DNSPolicy
      = "ClusterFirst" ∧
    (addDefaultsToCommonParams strictEnv emptyBlock (some pushyHints)
      fullDefaults).SchedulerName = "default-scheduler" ∧
    (addDefaultsToCommonParams strictEnv emptyBlock (some pushyHints)
      fullDefaults).TerminationGracePeriodSeconds = some 30 ∧
    (addDefaultsToCommonParams strictEnv emptyBlock (some pushyHints)
      fullDefaults).DisableSelfServiceScrape = some true :=
  have h := addDefaultsToCommonParams_fills strictEnv emptyBlock (some pushyHints)
    fullDefaults
  ⟨h.1 rfl, h.2.1 rfl, h.2.2.1 rfl, h.2.2.2.1 rfl, h.2.2.2.2.1 rfl, h.2.2.2.2.2 rfl⟩

/-! ## Strict security: pod level -/

/-- C13: when strict security is not enabled (nil parameters, or UseStrictSecurity unset
or false) both pod-level functions return nil, also when a custom SecurityContext is
supplied; when it is enabled and no custom context is supplied both return a non-nil
context. -/
theorem addStrictSecuritySettingsToPod_gate (supported : Bool)
    (params : Option CommonAppsParams) :
    ((∀ p, params = some p → p.UseStrictSecurity = none ∨ p.UseStrictSecurity = some false) →
      addStrictSecuritySettingsToPod supported params = none ∧
      addStrictSecuritySettingsWithRootToPod supported params = none) ∧
    (∀ p, params = some p → p.UseStrictSecurity = some true → p.SecurityContext = none →
      addStrictSecuritySettingsToPod supported params ≠ none ∧
      addStrictSecuritySettingsWithRootToPod supported params ≠ none) := by
  constructor
  · intro h
    cases params with
    | none => exact ⟨rfl, rfl⟩
    | some p =>
      rcases h p rfl with hp | hp <;>
        simp [addStrictSecuritySettingsToPod, addStrictSecuritySettingsWithRootToPod, hp]
  · intro p hp hs hc
    subst hp
    simp [addStrictSecuritySettingsToPod, addStrictSecuritySettingsWithRootToPod, hs, hc]

/-- Witness of C13: a block with strict security off and a custom context gets no pod
context; a block with strict security on and no custom context gets one. -/
theorem addStrictSecuritySettingsToPod_gate_witness :
    (addStrictSecuritySettingsToPod true
        (some { customSecurityBlock with UseStrictSecurity := some false }) = none ∧
      addStrictSecuritySettingsWithRootToPod true
        (some { customSecurityBlock with UseStrictSecurity := some false }) = none) ∧
    (addStrictSecuritySettingsToPod true (some { UseStrictSecurity := some true }) ≠ none ∧
      addStrictSecuritySettingsWithRootToPod true
        (some { UseStrictSecurity := some true }) ≠ none) :=
  ⟨(addStrictSecuritySettingsToPod_gate true
      (some { customSecurityBlock with UseStrictSecurity := some false })).1
      (fun p hp => by cases hp; exact Or.inr rfl),
    (addStrictSecuritySettingsToPod_gate true (some { UseStrictSecurity := some true })).2
      { UseStrictSecurity := some true } rfl rfl rfl⟩

/-- C14: with strict security enabled and a custom SecurityContext supplied, both
pod-level functions return exactly the PodSecurityContext of the custom object, whatever
the platform probe reports: nothing is injected into it. -/
theorem addStrictSecuritySettingsToPod_custom (supported : Bool) (p : CommonAppsParams)
    (custom : SecurityContext) (hs : p.UseStrictSecurity = some true)
    (hc : p.SecurityContext = some custom) :
    addStrictSecuritySettingsToPod supported (some p) = custom.PodSecurityContext ∧
    addStrictSecuritySettingsWithRootToPod supported (some p) = custom.PodSecurityContext := by
  simp [addStrictSecuritySettingsToPod, addStrictSecuritySettingsWithRootToPod, hs, hc]

/-- Witness of C14: the custom context that only fixes the user id comes back as given,
without FSGroup, seccomp profile or FSGroupChangePolicy, with the probe reporting
support. -/
theorem addStrictSecuritySettingsToPod_custom_witness :
    addStrictSecuritySettingsToPod true (some customSecurityBlock) =
        some { RunAsUser := some 1000 } ∧
    addStrictSecuritySettingsWithRootToPod true (some customSecurityBlock) =
        some { RunAsUser := some 1000 } :=
  addStrictSecuritySettingsToPod_custom true customSecurityBlock
    { PodSecurityContext := some { RunAsUser := some 1000 } } rfl rfl

/-- C15: for both values of requireRoot the default container context drops ALL
capabilities, forbids privilege escalation, makes the root filesystem read-only and is
not privileged, and the default pod context has a seccomp profile of type
RuntimeDefault. -/
theorem default_contexts_always (requireRoot : Bool) :
    (getDefaultSecurityContext requireRoot).Capabilities = some { Add := [], Drop := ["ALL"] } ∧
    (getDefaultSecurityContext requireRoot).AllowPrivilegeEscalation = some false ∧
    (getDefaultSecurityContext requireRoot).ReadOnlyRootFilesystem = some true ∧
    (getDefaultSecurityContext requireRoot).Privileged = some false ∧
    (getDefaultPodSecurityContext requireRoot).SeccompProfile =
      some { Typ := "RuntimeDefault", LocalhostProfile := none } := by
  cases requireRoot <;> decide

/-- C16: the non-root flavor of both default contexts sets RunAsNonRoot to true and
RunAsUser and RunAsGroup to 65534; the root-permitted flavor leaves the three unset; and
the two flavors agree on every other field. -/
theorem default_contexts_flavors :
    ((getDefaultPodSecurityContext false).RunAsNonRoot = some true ∧
      (getDefaultPodSecurityContext false).RunAsUser = some 65534 ∧
      (getDefaultPodSecurityContext false).RunAsGroup = some 65534) ∧
    ((getDefaultSecurityContext false).RunAsNonRoot = some true ∧
      (getDefaultSecurityContext false).RunAsUser = some 65534 ∧
      (getDefaultSecurityContext false).RunAsGroup = some 65534) ∧
    ((getDefaultPodSecurityContext true).RunAsNonRoot = none ∧
      (getDefaultPodSecurityContext true).RunAsUser = none ∧
      (getDefaultPodSecurityContext true).RunAsGroup = none) ∧
    ((getDefaultSecurityContext true).RunAsNonRoot = none ∧
      (getDefaultSecurityContext true).RunAsUser = none ∧
      (getDefaultSecurityContext true).RunAsGroup = none) ∧
    { getDefaultPodSecurityContext false with
        RunAsNonRoot := none, RunAsUser := none, RunAsGroup := none } =
      getDefaultPodSecurityContext true ∧
    { getDefaultSecurityContext false with
        RunAsNonRoot := none, RunAsUser := none, RunAsGroup := none } =
      getDefaultSecurityContext true := by
  decide

/-- C17: `compareAppAromr` treats an absent profile as equal to a default one in either
position: for a profile of type RuntimeDefault or Unconfined the comparison with nil is
true on both sides, nil against nil is true, and for a profile of any other type the
comparison with nil is false on both sides. -/
theorem compareAppAromr_nil (dt : String → String → Bool)
    (dp : Option String → Option String → Bool) (p : corev1.AppArmorProfile) :
    (p.Typ = "RuntimeDefault" ∨ p.Typ = "Unconfined" →
      compareAppAromr dt dp none (some p) = true ∧
      compareAppAromr dt dp (some p) none = true) ∧
    compareAppAromr dt dp none none = true ∧
    (p.Typ ≠ "RuntimeDefault" → p.Typ ≠ "Unconfined" →
      compareAppAromr dt dp none (some p) = false ∧
      compareAppAromr dt dp (some p) none = false) := by
  refine ⟨?_, rfl, ?_⟩
  · intro h
    rcases h with h | h <;>
      simp [compareAppAromr, h, AppArmorProfileTypeRuntimeDefault,
        AppArmorProfileTypeUnconfined]
  · intro h1 h2
    simp [compareAppAromr, h1, h2, AppArmorProfileTypeRuntimeDefault,
      AppArmorProfileTypeUnconfined]

/-- Witness of C17: an Unconfined profile equals nil on both sides, a Localhost profile
does not. -/
theorem compareAppAromr_nil_witness :
    (compareAppAromr (fun a b => a == b) (fun a b => a == b) none
        (some { Typ := "Unconfined" }) = true ∧
      compareAppAromr (fun a b => a == b) (fun a b => a == b)
        (some { Typ := "Unconfined" }) none = true) ∧
    (compareAppAromr (fun a b => a == b) (fun a b => a == b) none
        (some { Typ := "Localhost", LocalhostProfile := some "p" }) = false ∧
      compareAppAromr (fun a b => a == b) (fun a b => a == b)
        (some { Typ := "Localhost", LocalhostProfile := some "p" }) none = false) :=
  ⟨(compareAppAromr_nil _ _ { Typ := "Unconfined" }).1 (Or.inr rfl),
    (compareAppAromr_nil _ _ { Typ := "Localhost", LocalhostProfile := some "p" }).2.2
      (by decide) (by decide)⟩

/-! ## `addVMAlertDefaults`: when it panics -/

theorem reloader_image (env : Env) (common : CommonConfigReloaderParams) (u : Bool) :
    (addDefaultsToConfigReloader env common u).ConfigReloaderImage =
      env.formatContainerImage env.cfg.ContainerRegistry
        (if common.ConfigReloaderImage ≠ "" then common.ConfigReloaderImage
         else if common.ConfigReloaderImageTag ≠ "" then common.ConfigReloaderImageTag
         else env.cfg.ConfigReloader.Image) := by
  unfold addDefaultsToConfigReloader
  by_cases h1 : common.ConfigReloaderImage = "" <;>
    by_cases h2 : common.ConfigReloaderImageTag = "" <;> simp [h1, h2]

/-- C18, as stated, fails: a VMAlert CR with no image tag, against a configuration whose
alerting default record has an empty version but which has a config-reloader image, is
returned by `addVMAlertDefaults` with an empty image tag; there is no panic. -/
theorem addVMAlertDefaults_empty_tag_returns :
    ({} : VMAlert).Spec.CommonAppsParams.Image.Tag = "" ∧
    reloaderEnv.cfg.VMAlert.Version = "" ∧
    Except.map (fun cr => cr.Spec.CommonAppsParams.Image.Tag)
      (addVMAlertDefaults reloaderEnv {}) = Except.ok "" := by
  refine ⟨rfl, rfl, ?_⟩
  rfl

/-- C18, amended: `addVMAlertDefaults` aborts (panics with `cannot be empty`) exactly
when the config-reloader image reference it computes is empty, that is when the image
formatter, applied to the configured registry and to the ConfigReloaderImage of the CR if
set, else its ConfigReloaderImageTag if set, else the configured default image, returns
the empty string. Otherwise it returns the CR with both parameter blocks defaulted; the
image tag is the one resolved by `addDefaultsToCommonParams` and takes no part in the
test. -/
theorem addVMAlertDefaults_panic (env : Env) (cr : VMAlert) :
    (env.formatContainerImage env.cfg.ContainerRegistry
        (if cr.Spec.CommonConfigReloaderParams.ConfigReloaderImage ≠ "" then
           cr.Spec.CommonConfigReloaderParams.ConfigReloaderImage
         else if cr.Spec.CommonConfigReloaderParams.ConfigReloaderImageTag ≠ "" then
           cr.Spec.CommonConfigReloaderParams.ConfigReloaderImageTag
         else env.cfg.ConfigReloader.Image) = "" →
      addVMAlertDefaults env cr = Except.error "cannot be empty") ∧
    (env.formatContainerImage env.cfg.ContainerRegistry
        (if cr.Spec.CommonConfigReloaderParams.ConfigReloaderImage ≠ "" then
           cr.Spec.CommonConfigReloaderParams.ConfigReloaderImage
         else if cr.Spec.CommonConfigReloaderParams.ConfigReloaderImageTag ≠ "" then
           cr.Spec.CommonConfigReloaderParams.ConfigReloaderImageTag
         else env.cfg.ConfigReloader.Image) ≠ "" →
      addVMAlertDefaults env cr = Except.ok
        { Spec :=
          { CommonAppsParams :=
              addDefaultsToCommonParams env cr.Spec.CommonAppsParams
                (some { license := cr.Spec.License }) env.cfg.VMAlert
            CommonConfigReloaderParams :=
              addDefaultsToConfigReloader env cr.Spec.CommonConfigReloaderParams
                ((addDefaultsToCommonParams env cr.Spec.CommonAppsParams
                  (some { license := cr.Spec.License })
                  env.cfg.VMAlert).UseDefaultResources.getD false)
            License := cr.Spec.License } }) ∧
    ((∃ msg, addVMAlertDefaults env cr = Except.error msg) ↔
      env.formatContainerImage env.cfg.ContainerRegistry
        (if cr.Spec.CommonConfigReloaderParams.ConfigReloaderImage ≠ "" then
           cr.Spec.CommonConfigReloaderParams.ConfigReloaderImage
         else if cr.Spec.CommonConfigReloaderParams.ConfigReloaderImageTag ≠ "" then
           cr.Spec.CommonConfigReloaderParams.ConfigReloaderImageTag
         else env.cfg.ConfigReloader.Image) = "") := by
  refine ⟨?_, ?_, ?_⟩
  · intro h
    unfold addVMAlertDefaults
    simp only [reloader_image]
    rw [if_pos h]
  · intro h
    unfold addVMAlertDefaults
    simp only [reloader_image]
    rw [if_neg h]
  · constructor
    · rintro ⟨msg, hm⟩
      by_contra h
      unfold addVMAlertDefaults at hm
      simp only [reloader_image] at hm
      rw [if_neg h] at hm
      cases hm
    · intro h
      refine ⟨"cannot be empty", ?_⟩
      unfold addVMAlertDefaults
      simp only [reloader_image]
      rw [if_pos h]

/-- Witness of C18, amended: with no config-reloader image anywhere and a formatter that
has nothing to prepend, the function panics although the CR sets the image tag `v1.0.0`;
with a configured config-reloader image the empty CR is returned; and with no
config-reloader image anywhere but a formatter that prepends the registry, the reference
is `my.registry/` and the empty CR is returned as well. -/
theorem addVMAlertDefaults_panic_witness :
    addVMAlertDefaults testEnv
        { Spec := { CommonAppsParams := { Image := { Tag := "v1.0.0" } } } } =
      Except.error "cannot be empty" ∧
    Except.map (fun cr => cr.Spec.CommonConfigReloaderParams.ConfigReloaderImage)
      (addVMAlertDefaults reloaderEnv {}) =
      Except.ok "victoriametrics/operator:config-reloader" ∧
    Except.map (fun cr => cr.Spec.CommonConfigReloaderParams.ConfigReloaderImage)
      (addVMAlertDefaults registryEnv {}) = Except.ok "my.registry/" :=
  ⟨(addVMAlertDefaults_panic testEnv
      { Spec := { CommonAppsParams := { Image := { Tag := "v1.0.0" } } } }).1 rfl,
    by rw [(addVMAlertDefaults_panic reloaderEnv {}).2.1 (by decide)]; rfl,
    by rw [(addVMAlertDefaults_panic registryEnv {}).2.1 (by decide)]; rfl⟩

/-! ## `addVMClusterDefaults`: one set of hints for every tier -/

theorem cluster_storage (env : Env) (cr : VMCluster) :
    (addVMClusterDefaults env cr).Spec.VMStorage.map (fun t => t.CommonAppsParams) =
      cr.Spec.VMStorage.map (fun t =>
        addDefaultsToCommonParams env t.CommonAppsParams
          (some { useStrictSecurity := cr.Spec.UseStrictSecurity
                  tag := cr.Spec.ClusterVersion
                  license := cr.Spec.License
                  imagePullSecrets := cr.Spec.ImagePullSecrets })
          env.cfg.VMCluster.Storage.Common) := by
  obtain ⟨⟨dn, cv, lic, uss, ips, st, ins, sel, ⟨en, lbs⟩⟩⟩ := cr
  unfold addVMClusterDefaults
  by_cases hdn : dn = "" <;> cases st <;> cases ins <;> cases sel <;> cases en <;>
    simp [hdn, apply_ite VMStorage.CommonAppsParams]

theorem cluster_insert (env : Env) (cr : VMCluster) :
    (addVMClusterDefaults env cr).Spec.VMInsert.map (fun t => t.CommonAppsParams) =
      cr.Spec.VMInsert.map (fun t =>
        addDefaultsToCommonParams env t.CommonAppsParams
          (some { useStrictSecurity := cr.Spec.UseStrictSecurity
                  tag := cr.Spec.ClusterVersion
                  license := cr.Spec.License
                  imagePullSecrets := cr.Spec.ImagePullSecrets })
          env.cfg.VMCluster.Insert) := by
  obtain ⟨⟨dn, cv, lic, uss, ips, st, ins, sel, ⟨en, lbs⟩⟩⟩ := cr
  unfold addVMClusterDefaults
  by_cases hdn : dn = "" <;> cases st <;> cases ins <;> cases sel <;> cases en <;>
    simp [hdn]

theorem cluster_select (env : Env) (cr : VMCluster) :
    (addVMClusterDefaults env cr).Spec.VMSelect.map (fun t => t.CommonAppsParams) =
      cr.Spec.VMSelect.map (fun t =>
        addDefaultsToCommonParams env t.CommonAppsParams
          (some { useStrictSecurity := cr.Spec.UseStrictSecurity
                  tag := cr.Spec.ClusterVersion
                  license := cr.Spec.License
                  imagePullSecrets := cr.Spec.ImagePullSecrets })
          env.cfg.VMCluster.Select) := by
  obtain ⟨⟨dn, cv, lic, uss, ips, st, ins, sel, ⟨en, lbs⟩⟩⟩ := cr
  unfold addVMClusterDefaults
  by_cases hdn : dn = "" <;> cases st <;> cases ins <;> cases sel <;> cases en <;>
    simp [hdn]

theorem cluster_lb (env : Env) (cr : VMCluster)
    (h : cr.Spec.RequestsLoadBalancer.Enabled = true) :
    (addVMClusterDefaults env cr).Spec.RequestsLoadBalancer.Spec.CommonAppsParams =
      addDefaultsToCommonParams env cr.Spec.RequestsLoadBalancer.Spec.CommonAppsParams
        (some { useStrictSecurity := cr.Spec.UseStrictSecurity
                tag := cr.Spec.ClusterVersion
                license := cr.Spec.License
                imagePullSecrets := cr.Spec.ImagePullSecrets })
        env.cfg.VMAuth := by
  obtain ⟨⟨dn, cv, lic, uss, ips, st, ins, sel, ⟨en, lbs⟩⟩⟩ := cr
  simp only at h
  subst h
  unfold addVMClusterDefaults
  by_cases hdn : dn = "" <;> cases st <;> cases ins <;> cases sel <;>
    simp [hdn, addRequestsLoadBalancerDefaults] <;> (split <;> [skip; rfl]) <;>
    split_ifs <;> rfl

theorem cluster_backup (env : Env) (cr : VMCluster) :
    (addVMClusterDefaults env cr).Spec.VMStorage.map (fun t => t.VMBackup) =
      cr.Spec.VMStorage.map (fun t =>
        addDefaultsToVMBackup env t.VMBackup
          (match (addDefaultsToCommonParams env t.CommonAppsParams
              (some { useStrictSecurity := cr.Spec.UseStrictSecurity
                      tag := cr.Spec.ClusterVersion
                      license := cr.Spec.License
                      imagePullSecrets := cr.Spec.ImagePullSecrets })
              env.cfg.VMCluster.Storage.Common).UseDefaultResources with
           | some v => v
           | none => env.cfg.VMBackup.UseDefaultResources)
          env.cfg.VMBackup) := by
  obtain ⟨⟨dn, cv, lic, uss, ips, st, ins, sel, ⟨en, lbs⟩⟩⟩ := cr
  unfold addVMClusterDefaults
  by_cases hdn : dn = "" <;> cases st <;> cases ins <;> cases sel <;> cases en <;>
    simp [hdn, apply_ite VMStorage.CommonAppsParams, apply_ite VMStorage.VMBackup]

/-- The tag that the hints of a cluster CR give to a tier. -/
theorem cluster_tier_tag (env : Env) (cr : VMCluster) (hv : cr.Spec.ClusterVersion ≠ "")
    (b : CommonAppsParams) (d : ApplicationDefaults) :
    (addDefaultsToCommonParams env b
        (some { useStrictSecurity := cr.Spec.UseStrictSecurity
                tag := cr.Spec.ClusterVersion
                license := cr.Spec.License
                imagePullSecrets := cr.Spec.ImagePullSecrets }) d).Image.Tag =
      if b.Image.Tag = "" then
        (if License.IsProvided cr.Spec.License then
          addEntSuffixToTag cr.Spec.ClusterVersion else cr.Spec.ClusterVersion)
      else b.Image.Tag := by
  rw [add_Tag]
  simp only [hv, ne_eq, not_false_eq_true, if_true]

theorem map_tag {α : Type} (o o' : Option α) (f g : α → CommonAppsParams)
    (h : o.map f = o'.map g) :
    o.map (fun t => (f t).Image.Tag) = o'.map (fun t => (g t).Image.Tag) := by
  have h2 := congrArg (Option.map (fun c : CommonAppsParams => c.Image.Tag)) h
  simpa only [Option.map_map, Function.comp_def] using h2

/-- C19: for a VMCluster CR with a non-empty ClusterVersion, after `addVMClusterDefaults`
every present tier (storage, insert, select, and the load balancer when enabled) whose
own image tag was unset holds the same tag, ClusterVersion itself when no license is
provided on the CR and `addEntSuffixToTag ClusterVersion` when one is; a tier whose own
tag was set keeps it. -/
theorem addVMClusterDefaults_tier_tags (env : Env) (cr : VMCluster)
    (hv : cr.Spec.ClusterVersion ≠ "") :
    (addVMClusterDefaults env cr).Spec.VMStorage.map
        (fun t => t.CommonAppsParams.Image.Tag) =
      cr.Spec.VMStorage.map (fun t =>
        if t.CommonAppsParams.Image.Tag = "" then
          (if License.IsProvided cr.Spec.License then
            addEntSuffixToTag cr.Spec.ClusterVersion else cr.Spec.ClusterVersion)
        else t.CommonAppsParams.Image.Tag) ∧
    (addVMClusterDefaults env cr).Spec.VMInsert.map
        (fun t => t.CommonAppsParams.Image.Tag) =
      cr.Spec.VMInsert.map (fun t =>
        if t.CommonAppsParams.Image.Tag = "" then
          (if License.IsProvided cr.Spec.License then
            addEntSuffixToTag cr.Spec.ClusterVersion else cr.Spec.ClusterVersion)
        else t.CommonAppsParams.Image.Tag) ∧
    (addVMClusterDefaults env cr).Spec.VMSelect.map
        (fun t => t.CommonAppsParams.Image.Tag) =
      cr.Spec.VMSelect.map (fun t =>
        if t.CommonAppsParams.Image.Tag = "" then
          (if License.IsProvided cr.Spec.License then
            addEntSuffixToTag cr.Spec.ClusterVersion else cr.Spec.ClusterVersion)
        else t.CommonAppsParams.Image.Tag) ∧
    (cr.Spec.RequestsLoadBalancer.Enabled = true →
      (addVMClusterDefaults env cr).Spec.RequestsLoadBalancer.Spec.CommonAppsParams.Image.Tag =
        if cr.Spec.RequestsLoadBalancer.Spec.CommonAppsParams.Image.Tag = "" then
          (if License.IsProvided cr.Spec.License then
            addEntSuffixToTag cr.Spec.ClusterVersion else cr.Spec.ClusterVersion)
        else cr.Spec.RequestsLoadBalancer.Spec.CommonAppsParams.Image.Tag) := by
  refine ⟨?_, ?_, ?_, ?_⟩
  · have h := map_tag _ _ _ _ (cluster_storage env cr)
    simp only [cluster_tier_tag env cr hv] at h
    exact h
  · have h := map_tag _ _ _ _ (cluster_insert env cr)
    simp only [cluster_tier_tag env cr hv] at h
    exact h
  · have h := map_tag _ _ _ _ (cluster_select env cr)
    simp only [cluster_tier_tag env cr hv] at h
    exact h
  · intro h
    rw [cluster_lb env cr h]
    exact cluster_tier_tag env cr hv _ _

/-- Witness of C19: a licensed cluster pinned to `v1.120.0-cluster`: storage, select and
the load balancer get `v1.120.0-enterprise-cluster`, insert keeps its own `v1.0.0`. -/
theorem addVMClusterDefaults_tier_tags_witness :
    (addVMClusterDefaults testEnv licensedCluster).Spec.VMStorage.map
        (fun t => t.CommonAppsParams.Image.Tag) = some "v1.120.0-enterprise-cluster" ∧
    (addVMClusterDefaults testEnv licensedCluster).Spec.VMInsert.map
        (fun t => t.CommonAppsParams.Image.Tag) = some "v1.0.0" ∧
    (addVMClusterDefaults testEnv licensedCluster).Spec.VMSelect.map
        (fun t => t.CommonAppsParams.Image.Tag) = some "v1.120.0-enterprise-cluster" ∧
    (addVMClusterDefaults testEnv
        licensedCluster).Spec.RequestsLoadBalancer.Spec.CommonAppsParams.Image.Tag =
      "v1.120.0-enterprise-cluster" :=
  have h := addVMClusterDefaults_tier_tags testEnv licensedCluster (by decide)
  ⟨h.1.trans (by decide), h.2.1.trans (by decide), h.2.2.1.trans (by decide),
    (h.2.2.2 rfl).trans (by decide)⟩

/-! ## `addDefaultsToVMBackup` -/

theorem backup_Tag (env : Env) (cr : VMBackup) (u : Bool) (d : ApplicationDefaults) :
    (addDefaultsToVMBackup env (some cr) u d).map (fun r => r.Image.Tag) =
      some (if cr.Image.Tag = "" then addEntSuffixToTag d.Version else cr.Image.Tag) := by
  unfold addDefaultsToVMBackup
  simp only [Option.map_some', apply_ite VMBackup.Image, apply_ite Image.Tag, ite_self]

theorem backup_Port (env : Env) (cr : VMBackup) (u : Bool) (d : ApplicationDefaults) :
    (addDefaultsToVMBackup env (some cr) u d).map (fun r => r.Port) =
      some (if cr.Port = "" then d.Port else cr.Port) := by
  unfold addDefaultsToVMBackup
  simp only [Option.map_some', apply_ite VMBackup.Port, ite_self]

theorem backup_PullPolicy (env : Env) (cr : VMBackup) (u : Bool) (d : ApplicationDefaults) :
    (addDefaultsToVMBackup env (some cr) u d).map (fun r => r.Image.PullPolicy) =
      some (if cr.Image.PullPolicy = "" then PullIfNotPresent else cr.Image.PullPolicy) := by
  unfold addDefaultsToVMBackup
  simp only [Option.map_some', apply_ite VMBackup.Image, apply_ite Image.PullPolicy, ite_self]

/-- C20: for a non-nil backup sidecar spec `addDefaultsToVMBackup` returns a spec whose
tag is `addEntSuffixToTag appDefaults.Version` if the tag was unset and the tag of the
user otherwise, whose Port is the port of the default record if it was unset and whose
pull policy is `IfNotPresent` if it was unset. No license enters the function: under
`addVMClusterDefaults` the backup sidecar of the storage tier gets the tag
`addEntSuffixToTag` of the configured backup version whatever the License of the CR. -/
theorem addDefaultsToVMBackup_fields (env : Env) (cr : VMBackup) (u : Bool)
    (d : ApplicationDefaults) :
    (addDefaultsToVMBackup env (some cr) u d).map (fun r => r.Image.Tag) =
      some (if cr.Image.Tag = "" then addEntSuffixToTag d.Version else cr.Image.Tag) ∧
    (addDefaultsToVMBackup env (some cr) u d).map (fun r => r.Port) =
      some (if cr.Port = "" then d.Port else cr.Port) ∧
    (addDefaultsToVMBackup env (some cr) u d).map (fun r => r.Image.PullPolicy) =
      some (if cr.Image.PullPolicy = "" then "IfNotPresent" else cr.Image.PullPolicy) ∧
    (∀ (cluster : VMCluster) (st : VMStorage),
      cluster.Spec.VMStorage = some st → st.VMBackup = some cr → cr.Image.Tag = "" →
      ((addVMClusterDefaults env cluster).Spec.VMStorage.bind (fun t => t.VMBackup)).map
        (fun r => r.Image.Tag) = some (addEntSuffixToTag env.cfg.VMBackup.Version)) := by
  refine ⟨backup_Tag env cr u d, backup_Port env cr u d, backup_PullPolicy env cr u d, ?_⟩
  intro cluster st hst hbk htag
  have h := cluster_backup env cluster
  rw [hst] at h
  simp only [Option.map_some', hbk] at h
  cases hr : (addVMClusterDefaults env cluster).Spec.VMStorage with
  | none => rw [hr] at h; simp at h
  | some t =>
    rw [hr] at h
    simp only [Option.map_some', Option.some.injEq] at h
    simp only [Option.some_bind, h, backup_Tag, if_pos htag]

/-- Witness of C20: the empty backup spec of the storage tier of a licensed cluster, with
configured backup version `v1.119.0`, gets the tag `v1.119.0-enterprise`; a backup spec
with its own tag keeps it and gets the default port and pull policy. -/
theorem addDefaultsToVMBackup_fields_witness :
    ((addVMClusterDefaults reloaderEnv licensedCluster).Spec.VMStorage.bind
        (fun t => t.VMBackup)).map (fun r => r.Image.Tag) = some "v1.119.0-enterprise" ∧
    (addDefaultsToVMBackup reloaderEnv (some { Image := { Tag := "v1.0.0" } }) false
        reloaderEnv.cfg.VMBackup).map (fun r => (r.Image.Tag, r.Port, r.Image.PullPolicy)) =
      some ("v1.0.0", "8300", "IfNotPresent") :=
  ⟨((addDefaultsToVMBackup_fields reloaderEnv {} false {}).2.2.2 licensedCluster
      { VMBackup := some {} } rfl rfl rfl).trans (by decide),
    by decide⟩

/-! ## Defaulters of the built-in objects, field by field -/

theorem dep_Replicas (obj : appsv1.Deployment) :
    (addDeploymentDefaults obj).Spec.Replicas =
      if obj.Spec.Replicas = none then some 1 else obj.Spec.Replicas := by
  unfold addDeploymentDefaults
  simp only [apply_ite appsv1.Deployment.Spec, apply_ite appsv1.DeploymentSpec.Replicas, ite_self]

theorem dep_RevisionHistoryLimit (obj : appsv1.Deployment) :
    (addDeploymentDefaults obj).Spec.RevisionHistoryLimit =
      if obj.Spec.RevisionHistoryLimit = none then some 10 else obj.Spec.RevisionHistoryLimit := by
  unfold addDeploymentDefaults
  simp only [apply_ite appsv1.Deployment.Spec,
    apply_ite appsv1.DeploymentSpec.RevisionHistoryLimit, ite_self]

theorem dep_ProgressDeadlineSeconds (obj : appsv1.Deployment) :
    (addDeploymentDefaults obj).Spec.ProgressDeadlineSeconds =
      if obj.Spec.ProgressDeadlineSeconds = none then some 600
      else obj.Spec.ProgressDeadlineSeconds := by
  unfold addDeploymentDefaults
  simp only [apply_ite appsv1.Deployment.Spec,
    apply_ite appsv1.DeploymentSpec.ProgressDeadlineSeconds, ite_self]

theorem dep_Strategy (obj : appsv1.Deployment) :
    (addDeploymentDefaults obj).Spec.Strategy =
      if obj.Spec.Strategy.Typ = "" ∨ obj.Spec.Strategy.Typ = "RollingUpdate" then
        { Typ := "RollingUpdate"
          RollingUpdate := some
            { MaxUnavailable :=
                match obj.Spec.Strategy.RollingUpdate.bind (fun r => r.MaxUnavailable) with
                | none => some (intstr.FromString "25%")
                | some v => some v
              MaxSurge :=
                match obj.Spec.Strategy.RollingUpdate.bind (fun r => r.MaxSurge) with
                | none => some (intstr.FromString "25%")
                | some v => some v } }
      else obj.Spec.Strategy := by
  obtain ⟨⟨rep, ⟨typ, ru⟩, rev, prog⟩⟩ := obj
  unfold addDeploymentDefaults
  simp only [apply_ite appsv1.Deployment.Spec,
    apply_ite appsv1.DeploymentSpec.Strategy, ite_self, RollingUpdateDeploymentStrategyType]
  by_cases h1 : typ = ""
  · subst h1
    rcases ru with _ | ⟨mu, ms⟩
    · simp
    · cases mu <;> cases ms <;> simp
  · by_cases h2 : typ = "RollingUpdate"
    · subst h2
      rcases ru with _ | ⟨mu, ms⟩
      · simp
      · cases mu <;> cases ms <;> simp
    · simp [h1, h2]


theorem dep_idem (obj : appsv1.Deployment) :
    addDeploymentDefaults (addDeploymentDefaults obj) = addDeploymentDefaults obj := by
  apply appsv1.Deployment.ext
  apply appsv1.DeploymentSpec.ext
  · simp only [dep_Replicas]
    split_ifs <;> simp_all
  · simp only [dep_Strategy]
    by_cases h : obj.Spec.Strategy.Typ = "" ∨ obj.Spec.Strategy.Typ = "RollingUpdate"
    · simp only [h, if_true, or_true]
      cases obj.Spec.Strategy.RollingUpdate.bind (fun r => r.MaxUnavailable) <;>
        cases obj.Spec.Strategy.RollingUpdate.bind (fun r => r.MaxSurge) <;> simp
    · simp only [h, if_false]
  · simp only [dep_RevisionHistoryLimit]
    split_ifs <;> simp_all
  · simp only [dep_ProgressDeadlineSeconds]
    split_ifs <;> simp_all


theorem sts_Replicas (obj : appsv1.StatefulSet) :
    (addStatefulsetDefaults obj).Spec.Replicas =
      if obj.Spec.Replicas = none then some 1 else obj.Spec.Replicas := by
  obtain ⟨⟨rep, tpl, pmp, ⟨typ, ru⟩, rev, mrs⟩⟩ := obj
  unfold addStatefulsetDefaults
  by_cases h1 : typ = ""
  · subst h1
    rcases ru with _ | ⟨_ | p⟩ <;>
      simp [apply_ite appsv1.StatefulSetSpec.Replicas, OnDeleteStatefulSetStrategyType,
        RollingUpdateStatefulSetStrategyType]
  · by_cases h2 : typ = "RollingUpdate"
    · subst h2
      rcases ru with _ | ⟨_ | p⟩ <;>
        simp [apply_ite appsv1.StatefulSetSpec.Replicas, OnDeleteStatefulSetStrategyType,
          RollingUpdateStatefulSetStrategyType]
    · rcases ru with _ | ⟨_ | p⟩ <;>
        simp [h1, h2, apply_ite appsv1.StatefulSetSpec.Replicas,
          OnDeleteStatefulSetStrategyType, RollingUpdateStatefulSetStrategyType]

theorem sts_RevisionHistoryLimit (obj : appsv1.StatefulSet) :
    (addStatefulsetDefaults obj).Spec.RevisionHistoryLimit =
      if obj.Spec.RevisionHistoryLimit = none then some 10
      else obj.Spec.RevisionHistoryLimit := by
  obtain ⟨⟨rep, tpl, pmp, ⟨typ, ru⟩, rev, mrs⟩⟩ := obj
  unfold addStatefulsetDefaults
  by_cases h1 : typ = ""
  · subst h1
    rcases ru with _ | ⟨_ | p⟩ <;>
      simp [apply_ite appsv1.StatefulSetSpec.RevisionHistoryLimit, OnDeleteStatefulSetStrategyType,
        RollingUpdateStatefulSetStrategyType]
  · by_cases h2 : typ = "RollingUpdate"
    · subst h2
      rcases ru with _ | ⟨_ | p⟩ <;>
        simp [apply_ite appsv1.StatefulSetSpec.RevisionHistoryLimit, OnDeleteStatefulSetStrategyType,
          RollingUpdateStatefulSetStrategyType]
    · rcases ru with _ | ⟨_ | p⟩ <;>
        simp [h1, h2, apply_ite appsv1.StatefulSetSpec.RevisionHistoryLimit,
          OnDeleteStatefulSetStrategyType, RollingUpdateStatefulSetStrategyType]

theorem sts_MinReadySeconds (obj : appsv1.StatefulSet) :
    (addStatefulsetDefaults obj).Spec.MinReadySeconds =
      obj.Spec.MinReadySeconds := by
  obtain ⟨⟨rep, tpl, pmp, ⟨typ, ru⟩, rev, mrs⟩⟩ := obj
  unfold addStatefulsetDefaults
  by_cases h1 : typ = ""
  · subst h1
    rcases ru with _ | ⟨_ | p⟩ <;>
      simp [apply_ite appsv1.StatefulSetSpec.MinReadySeconds, OnDeleteStatefulSetStrategyType,
        RollingUpdateStatefulSetStrategyType]
  · by_cases h2 : typ = "RollingUpdate"
    · subst h2
      rcases ru with _ | ⟨_ | p⟩ <;>
        simp [apply_ite appsv1.StatefulSetSpec.MinReadySeconds, OnDeleteStatefulSetStrategyType,
          RollingUpdateStatefulSetStrategyType]
    · rcases ru with _ | ⟨_ | p⟩ <;>
        simp [h1, h2, apply_ite appsv1.StatefulSetSpec.MinReadySeconds,
          OnDeleteStatefulSetStrategyType, RollingUpdateStatefulSetStrategyType]

theorem sts_Template (obj : appsv1.StatefulSet) :
    (addStatefulsetDefaults obj).Spec.Template =
      if obj.Spec.Template.Spec.SecurityContext = none then
        { Spec := { SecurityContext := some {} } }
      else obj.Spec.Template := by
  obtain ⟨⟨rep, tpl, pmp, ⟨typ, ru⟩, rev, mrs⟩⟩ := obj
  unfold addStatefulsetDefaults
  by_cases h1 : typ = ""
  · subst h1
    rcases ru with _ | ⟨_ | p⟩ <;>
      simp [apply_ite appsv1.StatefulSetSpec.Template, OnDeleteStatefulSetStrategyType,
        RollingUpdateStatefulSetStrategyType]
  · by_cases h2 : typ = "RollingUpdate"
    · subst h2
      rcases ru with _ | ⟨_ | p⟩ <;>
        simp [apply_ite appsv1.StatefulSetSpec.Template, OnDeleteStatefulSetStrategyType,
          RollingUpdateStatefulSetStrategyType]
    · rcases ru with _ | ⟨_ | p⟩ <;>
        simp [h1, h2, apply_ite appsv1.StatefulSetSpec.Template,
          OnDeleteStatefulSetStrategyType, RollingUpdateStatefulSetStrategyType]

theorem sts_UpdateStrategy (obj : appsv1.StatefulSet) :
    (addStatefulsetDefaults obj).Spec.UpdateStrategy =
      { Typ := if obj.Spec.UpdateStrategy.Typ = "" then "OnDelete"
               else obj.Spec.UpdateStrategy.Typ
        RollingUpdate :=
          if obj.Spec.UpdateStrategy.Typ = "RollingUpdate" then
            obj.Spec.UpdateStrategy.RollingUpdate.map (fun r =>
              { Partition := match r.Partition with
                             | none => some 0
                             | some v => some v })
          else obj.Spec.UpdateStrategy.RollingUpdate } := by
  obtain ⟨⟨rep, tpl, pmp, ⟨typ, ru⟩, rev, mrs⟩⟩ := obj
  unfold addStatefulsetDefaults
  simp only [apply_ite appsv1.StatefulSetSpec.UpdateStrategy, ite_self,
    OnDeleteStatefulSetStrategyType, RollingUpdateStatefulSetStrategyType]
  by_cases h1 : typ = ""
  · subst h1
    rcases ru with _ | ⟨_ | p⟩ <;> simp
  · by_cases h2 : typ = "RollingUpdate"
    · subst h2
      rcases ru with _ | ⟨_ | p⟩ <;> simp
    · rcases ru with _ | ⟨_ | p⟩ <;> simp [h1, h2]

theorem sts_PodManagementPolicy (obj : appsv1.StatefulSet) :
    (addStatefulsetDefaults obj).Spec.PodManagementPolicy =
      if obj.Spec.PodManagementPolicy = "" then
        (if obj.Spec.MinReadySeconds > 0 ∨ obj.Spec.UpdateStrategy.Typ = "RollingUpdate" then
          "OrderedReady" else "Parallel")
      else obj.Spec.PodManagementPolicy := by
  obtain ⟨⟨rep, tpl, pmp, ⟨typ, ru⟩, rev, mrs⟩⟩ := obj
  unfold addStatefulsetDefaults
  simp only [apply_ite appsv1.StatefulSetSpec.PodManagementPolicy, ite_self,
    OnDeleteStatefulSetStrategyType, RollingUpdateStatefulSetStrategyType,
    ParallelPodManagement, OrderedReadyPodManagement]
  by_cases h1 : typ = ""
  · subst h1
    rcases ru with _ | ⟨_ | p⟩ <;> by_cases h3 : pmp = "" <;> by_cases h4 : mrs > 0 <;>
      simp [h3, h4]
  · by_cases h2 : typ = "RollingUpdate"
    · subst h2
      rcases ru with _ | ⟨_ | p⟩ <;> by_cases h3 : pmp = "" <;> by_cases h4 : mrs > 0 <;>
        simp [h3, h4]
    · rcases ru with _ | ⟨_ | p⟩ <;> by_cases h3 : pmp = "" <;> by_cases h4 : mrs > 0 <;>
        simp [h1, h2, h3, h4]


theorem sts_idem (obj : appsv1.StatefulSet) :
    addStatefulsetDefaults (addStatefulsetDefaults obj) = addStatefulsetDefaults obj := by
  apply appsv1.StatefulSet.ext
  apply appsv1.StatefulSetSpec.ext
  · simp only [sts_Replicas]
    split_ifs <;> simp_all
  · simp only [sts_Template]
    split_ifs <;> simp_all
  · simp only [sts_PodManagementPolicy, sts_MinReadySeconds, sts_UpdateStrategy]
    split_ifs <;> simp_all
  · simp only [sts_UpdateStrategy]
    by_cases h1 : obj.Spec.UpdateStrategy.Typ = ""
    · simp [h1]
    · by_cases h2 : obj.Spec.UpdateStrategy.Typ = "RollingUpdate"
      · rcases hr : obj.Spec.UpdateStrategy.RollingUpdate with _ | ⟨_ | p⟩ <;> simp [h2]
      · simp [h1, h2]
  · simp only [sts_RevisionHistoryLimit]
    split_ifs <;> simp_all
  · simp only [sts_MinReadySeconds]

theorem svc_Typ (obj : corev1.Service) :
    (addServiceDefaults obj).Spec.Typ =
      if obj.Spec.Typ = "" then "ClusterIP" else obj.Spec.Typ := by
  unfold addServiceDefaults
  simp only [apply_ite corev1.Service.Spec, apply_ite corev1.ServiceSpec.Typ, ite_self,
    ServiceTypeClusterIP]

theorem svc_ExternalIPs (obj : corev1.Service) :
    (addServiceDefaults obj).Spec.ExternalIPs = obj.Spec.ExternalIPs := by
  unfold addServiceDefaults
  simp only [apply_ite corev1.Service.Spec, apply_ite corev1.ServiceSpec.ExternalIPs, ite_self]

theorem svc_Ports (obj : corev1.Service) :
    (addServiceDefaults obj).Spec.Ports = obj.Spec.Ports.map servicePortDefaults := by
  unfold addServiceDefaults
  simp only [apply_ite corev1.Service.Spec, apply_ite corev1.ServiceSpec.Ports, ite_self]

theorem svc_SessionAffinity (obj : corev1.Service) :
    (addServiceDefaults obj).Spec.SessionAffinity =
      if obj.Spec.SessionAffinity = "" then "None" else obj.Spec.SessionAffinity := by
  unfold addServiceDefaults
  simp only [apply_ite corev1.Service.Spec, apply_ite corev1.ServiceSpec.SessionAffinity,
    ite_self, ServiceAffinityNone]

theorem svc_AllocateLoadBalancerNodePorts (obj : corev1.Service) :
    (addServiceDefaults obj).Spec.AllocateLoadBalancerNodePorts =
      if (obj.Spec.Typ = "LoadBalancer") ∧ obj.Spec.AllocateLoadBalancerNodePorts = none then
        some true
      else obj.Spec.AllocateLoadBalancerNodePorts := by
  unfold addServiceDefaults
  simp only [apply_ite corev1.Service.Spec,
    apply_ite corev1.ServiceSpec.AllocateLoadBalancerNodePorts,
    apply_ite corev1.ServiceSpec.Typ, ite_self,
    ServiceTypeClusterIP, ServiceTypeLoadBalancer]
  by_cases h : obj.Spec.Typ = "" <;> by_cases h2 : obj.Spec.Typ = "LoadBalancer" <;>
    simp_all

theorem svc_InternalTrafficPolicy (obj : corev1.Service) :
    (addServiceDefaults obj).Spec.InternalTrafficPolicy =
      if obj.Spec.InternalTrafficPolicy = none ∧
          (obj.Spec.Typ = "" ∨ obj.Spec.Typ = "NodePort" ∨ obj.Spec.Typ = "LoadBalancer" ∨
            obj.Spec.Typ = "ClusterIP") then
        some "Cluster"
      else obj.Spec.InternalTrafficPolicy := by
  unfold addServiceDefaults
  simp only [apply_ite corev1.Service.Spec,
    apply_ite corev1.ServiceSpec.InternalTrafficPolicy,
    apply_ite corev1.ServiceSpec.Typ, ite_self,
    ServiceTypeClusterIP, ServiceTypeLoadBalancer, ServiceTypeNodePort,
    ServiceInternalTrafficPolicyCluster]
  by_cases h : obj.Spec.Typ = "" <;> by_cases h2 : obj.Spec.InternalTrafficPolicy = none <;>
    simp_all

theorem svc_ExternalTrafficPolicy (obj : corev1.Service) :
    (addServiceDefaults obj).Spec.ExternalTrafficPolicy =
      if (obj.Spec.Typ = "LoadBalancer" ∨ obj.Spec.Typ = "NodePort" ∨
          ((obj.Spec.Typ = "" ∨ obj.Spec.Typ = "ClusterIP") ∧ obj.Spec.ExternalIPs ≠ [])) ∧
          obj.Spec.ExternalTrafficPolicy = "" then
        "Cluster"
      else obj.Spec.ExternalTrafficPolicy := by
  unfold addServiceDefaults
  simp only [apply_ite corev1.Service.Spec,
    apply_ite corev1.ServiceSpec.ExternalTrafficPolicy, isExternallyAccessible,
    apply_ite corev1.ServiceSpec.Typ, apply_ite corev1.ServiceSpec.ExternalIPs, ite_self,
    ServiceTypeClusterIP, ServiceTypeLoadBalancer, ServiceTypeNodePort,
    ServiceExternalTrafficPolicyCluster]
  by_cases h : obj.Spec.Typ = "" <;> by_cases h2 : obj.Spec.ExternalTrafficPolicy = "" <;>
    simp_all [List.length_pos, or_assoc]


theorem svc_SessionAffinityConfig (obj : corev1.Service) :
    (addServiceDefaults obj).Spec.SessionAffinityConfig =
      if obj.Spec.SessionAffinity = "" ∨ obj.Spec.SessionAffinity = "None" then none
      else if obj.Spec.SessionAffinity = "ClientIP" ∧
          (obj.Spec.SessionAffinityConfig.bind (fun c => c.ClientIP)).bind
            (fun c => c.TimeoutSeconds) = none then
        some { ClientIP := some { TimeoutSeconds := some 10800 } }
      else obj.Spec.SessionAffinityConfig := by
  obtain ⟨⟨ports, typ, ips, sa, etp, cfg, alloc, itp⟩⟩ := obj
  unfold addServiceDefaults
  simp only [apply_ite corev1.Service.Spec,
    apply_ite corev1.ServiceSpec.SessionAffinityConfig,
    apply_ite corev1.ServiceSpec.SessionAffinity, ite_self,
    ServiceAffinityNone, ServiceAffinityClientIP, DefaultClientIPServiceAffinitySeconds]
  by_cases h1 : sa = ""
  · subst h1; simp
  · by_cases h2 : sa = "None"
    · subst h2; simp
    · by_cases h3 : sa = "ClientIP"
      · subst h3
        rcases cfg with _ | ⟨_ | ⟨_ | t⟩⟩ <;> simp
      · simp [h1, h2, h3]

theorem servicePortDefaults_idem (sp : corev1.ServicePort) :
    servicePortDefaults (servicePortDefaults sp) = servicePortDefaults sp := by
  obtain ⟨name, proto, port, ⟨t, iv, sv⟩⟩ := sp
  unfold servicePortDefaults
  by_cases h1 : proto = "" <;>
    by_cases h2 : ({ Typ := t, IntVal := iv, StrVal := sv } : IntOrString) = intstr.FromInt32 0 <;>
    by_cases h3 : ({ Typ := t, IntVal := iv, StrVal := sv } : IntOrString) = intstr.FromString "" <;>
    simp [h1, h2, h3, ProtocolTCP]

theorem svc_idem (obj : corev1.Service) :
    addServiceDefaults (addServiceDefaults obj) = addServiceDefaults obj := by
  apply corev1.Service.ext
  apply corev1.ServiceSpec.ext
  · simp only [svc_Ports, List.map_map]
    apply List.map_congr_left
    intro sp _
    exact servicePortDefaults_idem sp
  · simp only [svc_Typ]
    split_ifs <;> simp_all
  · simp only [svc_ExternalIPs]
  · simp only [svc_SessionAffinity]
    split_ifs <;> simp_all
  · simp only [svc_ExternalTrafficPolicy, svc_Typ, svc_ExternalIPs]
    split_ifs <;> simp_all
  · simp only [svc_SessionAffinityConfig, svc_SessionAffinity]
    by_cases h1 : obj.Spec.SessionAffinity = ""
    · simp [h1]
    · by_cases h2 : obj.Spec.SessionAffinity = "None"
      · simp [h2]
      · by_cases h3 : obj.Spec.SessionAffinity = "ClientIP"
        · rcases hc : obj.Spec.SessionAffinityConfig with _ | ⟨_ | ⟨_ | t⟩⟩ <;> simp [h3]
        · simp [h1, h2, h3]
  · simp only [svc_AllocateLoadBalancerNodePorts, svc_Typ]
    split_ifs <;> simp_all
  · simp only [svc_InternalTrafficPolicy, svc_Typ]
    split_ifs <;> simp_all

/-! ## Defaulters of the built-in objects: the claims -/

/-- C21: a Deployment with no replica count, an empty strategy type, no rolling-update
parameters and no revision history limit gets replicas 1, strategy RollingUpdate with
maxUnavailable and maxSurge `25%`, and revisionHistoryLimit 10; a Deployment whose
strategy type is already Recreate keeps its strategy as it is, without rolling-update
parameters added; and every field that was already set keeps its value. -/
theorem addDeploymentDefaults_fields (obj : appsv1.Deployment) :
    (obj.Spec.Replicas = none → obj.Spec.Strategy.Typ = "" →
      (∀ r, obj.Spec.Strategy.RollingUpdate = some r →
        r.MaxUnavailable = none ∧ r.MaxSurge = none) →
      obj.Spec.RevisionHistoryLimit = none →
      (addDeploymentDefaults obj).Spec.Replicas = some 1 ∧
      (addDeploymentDefaults obj).Spec.Strategy =
        { Typ := "RollingUpdate"
          RollingUpdate := some
            { MaxUnavailable := some (intstr.FromString "25%")
              MaxSurge := some (intstr.FromString "25%") } } ∧
      (addDeploymentDefaults obj).Spec.RevisionHistoryLimit = some 10) ∧
    (obj.Spec.Strategy.Typ = "Recreate" →
      (addDeploymentDefaults obj).Spec.Strategy = obj.Spec.Strategy) ∧
    (obj.Spec.Replicas ≠ none →
      (addDeploymentDefaults obj).Spec.Replicas = obj.Spec.Replicas) ∧
    (obj.Spec.Strategy.Typ ≠ "" →
      (addDeploymentDefaults obj).Spec.Strategy.Typ = obj.Spec.Strategy.Typ) ∧
    (∀ r, obj.Spec.Strategy.RollingUpdate = some r → r.MaxUnavailable ≠ none →
      (addDeploymentDefaults obj).Spec.Strategy.RollingUpdate.bind
        (fun x => x.MaxUnavailable) = r.MaxUnavailable) ∧
    (∀ r, obj.Spec.Strategy.RollingUpdate = some r → r.MaxSurge ≠ none →
      (addDeploymentDefaults obj).Spec.Strategy.RollingUpdate.bind
        (fun x => x.MaxSurge) = r.MaxSurge) ∧
    (obj.Spec.RevisionHistoryLimit ≠ none →
      (addDeploymentDefaults obj).Spec.RevisionHistoryLimit = obj.Spec.RevisionHistoryLimit) ∧
    (obj.Spec.ProgressDeadlineSeconds ≠ none →
      (addDeploymentDefaults obj).Spec.ProgressDeadlineSeconds =
        obj.Spec.ProgressDeadlineSeconds) := by
  refine ⟨?_, ?_, ?_, ?_, ?_, ?_, ?_, ?_⟩
  · intro h1 h2 h3 h4
    refine ⟨by rw [dep_Replicas, if_pos h1], ?_, by rw [dep_RevisionHistoryLimit, if_pos h4]⟩
    rw [dep_Strategy, if_pos (Or.inl h2)]
    rcases hr : obj.Spec.Strategy.RollingUpdate with _ | r
    · simp
    · obtain ⟨hu, hs⟩ := h3 r hr
      simp [hu, hs]
  · intro h
    rw [dep_Strategy, if_neg]
    rw [h]
    decide
  · intro h; rw [dep_Replicas, if_neg h]
  · intro h
    rw [dep_Strategy]
    split_ifs with hc
    · rcases hc with hc | hc
      · exact absurd hc h
      · exact hc.symm
    · rfl
  · intro r hr hu
    rw [dep_Strategy]
    split_ifs with hc
    · cases hm : r.MaxUnavailable with
      | none => exact absurd hm hu
      | some v => simp [hr, hm]
    · simp [hr]
  · intro r hr hu
    rw [dep_Strategy]
    split_ifs with hc
    · cases hm : r.MaxSurge with
      | none => exact absurd hm hu
      | some v => simp [hr, hm]
    · simp [hr]
  · intro h; rw [dep_RevisionHistoryLimit, if_neg h]
  · intro h; rw [dep_ProgressDeadlineSeconds, if_neg h]

/-- Witness of C21: the bare Deployment gets the four defaults; the Recreate Deployment
keeps its strategy, replicas, history limit and deadline; the Deployment that pins
maxUnavailable to 1 keeps it. -/
theorem addDeploymentDefaults_fields_witness :
    ((addDeploymentDefaults bareDeployment).Spec.Replicas = some 1 ∧
      (addDeploymentDefaults bareDeployment).Spec.Strategy =
        { Typ := "RollingUpdate"
          RollingUpdate := some
            { MaxUnavailable := some (intstr.FromString "25%")
              MaxSurge := some (intstr.FromString "25%") } } ∧
      (addDeploymentDefaults bareDeployment).Spec.RevisionHistoryLimit = some 10) ∧
    (addDeploymentDefaults recreateDeployment).Spec.Strategy =
      { Typ := "Recreate", RollingUpdate := none } ∧
    (addDeploymentDefaults recreateDeployment).Spec.Replicas = some 3 ∧
    (addDeploymentDefaults recreateDeployment).Spec.Strategy.Typ = "Recreate" ∧
    (addDeploymentDefaults pinnedDeployment).Spec.Strategy.RollingUpdate.bind
      (fun x => x.MaxUnavailable) = some (intstr.FromInt32 1) ∧
    (addDeploymentDefaults recreateDeployment).Spec.RevisionHistoryLimit = some 2 ∧
    (addDeploymentDefaults recreateDeployment).Spec.ProgressDeadlineSeconds = some 60 :=
  have hb := addDeploymentDefaults_fields bareDeployment
  have hr := addDeploymentDefaults_fields recreateDeployment
  have hp := addDeploymentDefaults_fields pinnedDeployment
  ⟨hb.1 rfl rfl (fun r h => by cases h) rfl, hr.2.1 rfl, hr.2.2.1 (by decide),
    hr.2.2.2.1 (by decide),
    hp.2.2.2.2.1 { MaxUnavailable := some (intstr.FromInt32 1) } rfl (by decide),
    hr.2.2.2.2.2.2.1 (by decide), hr.2.2.2.2.2.2.2 (by decide)⟩

/-- C22: a Service of type LoadBalancer with AllocateLoadBalancerNodePorts and
ExternalTrafficPolicy unset gets AllocateLoadBalancerNodePorts true and
ExternalTrafficPolicy `Cluster`; a Service whose resulting type is not LoadBalancer has
AllocateLoadBalancerNodePorts left as it was. -/
theorem addServiceDefaults_load_balancer (obj : corev1.Service) :
    (obj.Spec.Typ = "LoadBalancer" → obj.Spec.AllocateLoadBalancerNodePorts = none →
      obj.Spec.ExternalTrafficPolicy = "" →
      (addServiceDefaults obj).Spec.AllocateLoadBalancerNodePorts = some true ∧
      (addServiceDefaults obj).Spec.ExternalTrafficPolicy = "Cluster") ∧
    ((addServiceDefaults obj).Spec.Typ ≠ "LoadBalancer" →
      (addServiceDefaults obj).Spec.AllocateLoadBalancerNodePorts =
        obj.Spec.AllocateLoadBalancerNodePorts) := by
  constructor
  · intro h1 h2 h3
    constructor
    · rw [svc_AllocateLoadBalancerNodePorts, if_pos ⟨h1, h2⟩]
    · rw [svc_ExternalTrafficPolicy, if_pos ⟨Or.inl h1, h3⟩]
  · intro h
    rw [svc_Typ] at h
    rw [svc_AllocateLoadBalancerNodePorts, if_neg]
    rintro ⟨ht, -⟩
    rw [ht] at h
    exact h (by decide)

/-- Witness of C22: the LoadBalancer Service gets both defaults; the Service that
defaults to ClusterIP keeps its explicit false. -/
theorem addServiceDefaults_load_balancer_witness :
    ((addServiceDefaults loadBalancerService).Spec.AllocateLoadBalancerNodePorts = some true ∧
      (addServiceDefaults loadBalancerService).Spec.ExternalTrafficPolicy = "Cluster") ∧
    (addServiceDefaults plainService).Spec.AllocateLoadBalancerNodePorts = some false :=
  ⟨(addServiceDefaults_load_balancer loadBalancerService).1 rfl rfl rfl,
    (addServiceDefaults_load_balancer plainService).2 (by decide)⟩

/-- C24: each of `addDeploymentDefaults`, `addStatefulsetDefaults` and
`addServiceDefaults` is idempotent: for every input object, applying the defaulter to its
own output returns that output unchanged. -/
theorem builtin_defaulters_idempotent :
    (∀ obj : appsv1.Deployment,
      addDeploymentDefaults (addDeploymentDefaults obj) = addDeploymentDefaults obj) ∧
    (∀ obj : appsv1.StatefulSet,
      addStatefulsetDefaults (addStatefulsetDefaults obj) = addStatefulsetDefaults obj) ∧
    (∀ obj : corev1.Service,
      addServiceDefaults (addServiceDefaults obj) = addServiceDefaults obj) :=
  ⟨dep_idem, sts_idem, svc_idem⟩

/-- The two inputs named in C24, evaluated: a Service port whose Port is 0 keeps the
target port 0, and a ClientIP affinity with a partially filled config gets the default
timeout, on the first pass and on the second. -/
theorem addServiceDefaults_twice_example :
    (addServiceDefaults loadBalancerService).Spec.Ports =
      [{ Name := "http", Protocol := "TCP", Port := 0, TargetPort := intstr.FromInt32 0 }] ∧
    (addServiceDefaults loadBalancerService).Spec.SessionAffinityConfig =
      some { ClientIP := some { TimeoutSeconds := some 10800 } } ∧
    addServiceDefaults (addServiceDefaults loadBalancerService) =
      addServiceDefaults loadBalancerService := by
  decide

/-! ## The image tag under a repeated merge -/

/-- C23: the resolved image tag is a fixed point of re-merging: for every block, hints
value and default record, the image tag after applying `addDefaultsToCommonParams` twice
equals the tag after applying it once. -/
theorem addDefaultsToCommonParams_tag_fixed (env : Env) (b : CommonAppsParams)
    (cp : Option commonParams) (d : ApplicationDefaults) :
    (addDefaultsToCommonParams env (addDefaultsToCommonParams env b cp d) cp d).Image.Tag =
      (addDefaultsToCommonParams env b cp d).Image.Tag := by
  simp only [add_Tag]
  split_ifs <;> simp_all

/-- Witness of C23: no tag, default version `v1.119.0` and a provided license give
`v1.119.0-enterprise` after the first merge and after the second. -/
theorem addDefaultsToCommonParams_tag_fixed_witness :
    (addDefaultsToCommonParams testEnv
        (addDefaultsToCommonParams testEnv {} (some licensedHints) { Version := "v1.119.0" })
        (some licensedHints) { Version := "v1.119.0" }).Image.Tag = "v1.119.0-enterprise" ∧
    (addDefaultsToCommonParams testEnv {} (some licensedHints)
        { Version := "v1.119.0" }).Image.Tag = "v1.119.0-enterprise" :=
  ⟨(addDefaultsToCommonParams_tag_fixed testEnv {} (some licensedHints)
      { Version := "v1.119.0" }).trans (by decide), by decide⟩

/-! ## Strict security: container level -/

/-- C25: for parameters that carry a custom SecurityContext, whatever their
UseStrictSecurity, `AddStrictSecuritySettingsToContainers` and
`AddStrictSecuritySettingsWithRootToContainers` produce the same container list: every
container gets the context that `containerSecurityContext` builds from the custom object,
which is made of the fields of the custom object only and is the same for both values of
requireRoot. -/
theorem AddStrictSecuritySettings_custom (containers : List corev1.Container)
    (p : CommonAppsParams) (custom : SecurityContext)
    (h : p.SecurityContext = some custom) :
    AddStrictSecuritySettingsToContainers containers (some p) =
      Except.ok (containers.map (fun c =>
        { c with SecurityContext := some (containerSecurityContext (some custom) false) })) ∧
    AddStrictSecuritySettingsWithRootToContainers containers (some p) =
      AddStrictSecuritySettingsToContainers containers (some p) ∧
    (∀ requireRoot : Bool,
      containerSecurityContext (some custom) requireRoot =
        { Privileged := custom.ContainerSecurityContext.bind (fun c => c.Privileged)
          Capabilities := custom.ContainerSecurityContext.bind (fun c => c.Capabilities)
          ReadOnlyRootFilesystem :=
            custom.ContainerSecurityContext.bind (fun c => c.ReadOnlyRootFilesystem)
          AllowPrivilegeEscalation :=
            custom.ContainerSecurityContext.bind (fun c => c.AllowPrivilegeEscalation)
          ProcMount := custom.ContainerSecurityContext.bind (fun c => c.ProcMount)
          RunAsUser := custom.PodSecurityContext.bind (fun q => q.RunAsUser)
          RunAsGroup := custom.PodSecurityContext.bind (fun q => q.RunAsGroup)
          RunAsNonRoot := custom.PodSecurityContext.bind (fun q => q.RunAsNonRoot)
          AppArmorProfile := custom.PodSecurityContext.bind (fun q => q.AppArmorProfile)
          SeccompProfile := custom.PodSecurityContext.bind (fun q => q.SeccompProfile) }) := by
  have hroot : ∀ r : Bool,
      containerSecurityContext (some custom) r = containerSecurityContext (some custom) false := by
    intro r
    rfl
  refine ⟨?_, ?_, ?_⟩
  · simp [AddStrictSecuritySettingsToContainers, derefParams, h]
  · simp [AddStrictSecuritySettingsToContainers, AddStrictSecuritySettingsWithRootToContainers,
      derefParams, h, hroot true]
  · intro r
    obtain ⟨pod, cont⟩ := custom
    cases pod <;> cases cont <;> rfl

/-- Witness of C25: with strict security unset and a custom context, both calls give the
two containers the same context, built from the custom object. -/
theorem AddStrictSecuritySettings_custom_witness :
    AddStrictSecuritySettingsToContainers twoContainers (some customContainerBlock) =
      Except.ok
        [{ Name := "app", Image := "app:v1",
           SecurityContext := some
             { Privileged := some false, RunAsUser := some 1000, RunAsNonRoot := some true } },
         { Name := "sidecar", Image := "sidecar:v1",
           SecurityContext := some
             { Privileged := some false, RunAsUser := some 1000, RunAsNonRoot := some true } }] ∧
    AddStrictSecuritySettingsWithRootToContainers twoContainers (some customContainerBlock) =
      AddStrictSecuritySettingsToContainers twoContainers (some customContainerBlock) :=
  have h := AddStrictSecuritySettings_custom twoContainers customContainerBlock
    { PodSecurityContext := some { RunAsUser := some 1000, RunAsNonRoot := some true }
      ContainerSecurityContext := some { Privileged := some false } } rfl
  ⟨h.1.trans rfl, h.2.1⟩

/-- C26, on the code: with nil parameters both container functions stop with the
nil-dereference panic, because the guard selects `params.UseStrictSecurity` before it
tests `params == nil`; no container list is returned. -/
theorem AddStrictSecuritySettings_nil_panics :
    AddStrictSecuritySettingsToContainers twoContainers none =
      Except.error nilDereference ∧
    AddStrictSecuritySettingsWithRootToContainers twoContainers none =
      Except.error nilDereference ∧
    AddStrictSecuritySettingsToContainers [] none = Except.error nilDereference ∧
    addStrictSecuritySettingsToPod true none = none :=
  ⟨rfl, rfl, rfl, rfl⟩

end Build
